import Mathlib

/-!
Verification of the TicketDrop ticket-sales backend.

This file gives a shallow embedding, in Lean 4, of the core request handlers
of the TicketDrop repository (an Express + PostgreSQL + Redis ticketing
service), and proves or refutes the frozen specification claims about them.

The embedding follows the TypeScript source:
- the relational store is a `DB` record of lists of rows (events, tiers,
  reservations, checkout sessions, orders, tickets) together with a fresh-id
  counter standing for the server-side uuid supply;
- SQL aggregate queries become list folds translated from the exact WHERE
  clauses of the source;
- each handler becomes a function from the store (and the relevant slice of
  the Redis state) to an updated store plus a result value; a transaction
  that rolls back returns the unchanged store;
- times are absolute instants in milliseconds (`Nat`);
- the HMAC-SHA256 hex digest from node crypto is an external primitive and
  is modelled as an explicit function parameter `hmac : String → String → String`.
-/

namespace TicketDrop

/-! ## Data model (api/db/init.sql and the row interfaces in src/db) -/

abbrev Id := Nat
abbrev UserId := String
abbrev Token := String

inductive EventStatus where
  | draft | scheduled | onSale | closed | canceled
deriving DecidableEq, Repr

structure Event where
  id : Id
  onSaleAt : Nat
  status : EventStatus
  paused : Bool
deriving DecidableEq, Repr

structure Tier where
  id : Id
  eventId : Id
  priceCents : Nat
  capacity : Nat
  perUserLimit : Nat
deriving DecidableEq, Repr

inductive ResStatus where
  | active | expired | converted | canceled
deriving DecidableEq, Repr

structure Reservation where
  id : Id
  eventId : Id
  tierId : Id
  userToken : UserId
  quantity : Nat
  status : ResStatus
  expiresAt : Nat
  createdAt : Nat
deriving DecidableEq, Repr

inductive SessStatus where
  | pending | completed | failed | expired
deriving DecidableEq, Repr

structure CheckoutSession where
  id : Id
  reservationId : Id
  idempotencyKey : String
  status : SessStatus
  createdAt : Nat
deriving DecidableEq, Repr

inductive OrderStatus where
  | paid | refunded | canceled
deriving DecidableEq, Repr

structure Order where
  id : Id
  checkoutSessionId : Id
  reservationId : Id
  eventId : Id
  tierId : Id
  userToken : UserId
  quantity : Nat
  totalPriceCents : Nat
  status : OrderStatus
deriving DecidableEq, Repr

structure Ticket where
  orderId : Id
  eventId : Id
  tierId : Id
  userToken : UserId
  code : Nat
  qrSig : String
deriving DecidableEq, Repr

structure DB where
  events : List Event
  tiers : List Tier
  reservations : List Reservation
  sessions : List CheckoutSession
  orders : List Order
  tickets : List Ticket
  nextId : Id
deriving DecidableEq, Repr

/-! ## Configuration (api/src/config.ts, defaults) -/

structure Config where
  reservationTtlMs : Nat
  perEventLimit : Nat
  waveSize : Nat
  waveIntervalMs : Nat
deriving DecidableEq, Repr

def defaultConfig : Config :=
  { reservationTtlMs := 3 * 60 * 1000
    perEventLimit := 6
    waveSize := 100
    waveIntervalMs := 30000 }

/-! ## SQL aggregates used by POST /events/:id/reservations -/

def qtySum (l : List Reservation) : Nat := (l.map (fun r => r.quantity)).sum

def orderQtySum (l : List Order) : Nat := (l.map (fun o => o.quantity)).sum

/-- `SELECT COALESCE(SUM(quantity),0) FROM reservations WHERE tier_id = $1
AND status = 'active' AND expires_at > NOW()`. -/
def tierActiveQty (db : DB) (tierId : Id) (now : Nat) : Nat :=
  qtySum (db.reservations.filter
    (fun r => r.tierId == tierId && r.status == ResStatus.active && decide (now < r.expiresAt)))

/-- `SELECT COALESCE(SUM(quantity),0) FROM orders WHERE tier_id = $1 AND status = 'paid'`. -/
def tierSoldQty (db : DB) (tierId : Id) : Nat :=
  orderQtySum (db.orders.filter
    (fun o => o.tierId == tierId && o.status == OrderStatus.paid))

/-- `SELECT COALESCE(SUM(quantity),0) FROM orders WHERE event_id = $1
AND user_token = $2 AND status = 'paid'`. -/
def userPaidQty (db : DB) (eventId : Id) (u : UserId) : Nat :=
  orderQtySum (db.orders.filter
    (fun o => o.eventId == eventId && o.userToken == u && o.status == OrderStatus.paid))

/-- `SELECT COALESCE(SUM(quantity),0) FROM reservations WHERE event_id = $1
AND user_token = $2 AND status = 'active' AND expires_at > NOW()`. -/
def userHeldQty (db : DB) (eventId : Id) (u : UserId) (now : Nat) : Nat :=
  qtySum (db.reservations.filter
    (fun r => r.eventId == eventId && r.userToken == u &&
      r.status == ResStatus.active && decide (now < r.expiresAt)))

/-- `SELECT * FROM reservations WHERE event_id = $1 AND user_token = $2
AND status = 'active' AND expires_at > NOW() LIMIT 1`. -/
def findActiveRes (db : DB) (eventId : Id) (u : UserId) (now : Nat) : Option Reservation :=
  db.reservations.find?
    (fun r => r.eventId == eventId && r.userToken == u &&
      r.status == ResStatus.active && decide (now < r.expiresAt))

/-! ## Redis admission grants (`waiting_room_access:{event}:{token}` keys) -/

abbrev Grants := List (Id × Token)

def hasAccess (g : Grants) (eventId : Id) (token : Token) : Bool :=
  g.contains (eventId, token)

/-! ## POST /events/:id/reservations (api/src/routes/reservations.ts) -/

inductive ReserveResult where
  | created (r : Reservation)
  | validationError
  | rateLimited
  | notAdmitted
  | eventNotFound
  | salesPaused
  | purchaseLimitExceeded (limit alreadyPurchased activeHolds requested : Nat)
  | perTierLimitExceeded (maxAllowed : Nat)
  | doubleHold (reservationId : Id)
  | insufficientInventory (available : Int) (requested : Nat)
  | tierNotFound
deriving DecidableEq, Repr

/-- HTTP status code attached to each outcome by the handler. -/
def ReserveResult.httpStatus : ReserveResult → Nat
  | .created _ => 201
  | .validationError => 400
  | .rateLimited => 429
  | .notAdmitted => 403
  | .eventNotFound => 404
  | .salesPaused => 403
  | .purchaseLimitExceeded _ _ _ _ => 403
  | .perTierLimitExceeded _ => 400
  | .doubleHold _ => 409
  | .insufficientInventory _ _ => 409
  | .tierNotFound => 404

/-- The reservation-creation handler.  `rlAllowed` is the rate limiter's
verdict for this request (the limiter itself is modelled separately). -/
def reserveCore (cfg : Config) (db : DB) (grants : Grants) (rlAllowed : Bool)
    (eventId tierId : Id) (userId : UserId) (quantity : Nat) (token : Token)
    (now : Nat) : DB × ReserveResult :=
  if quantity == 0 then (db, .validationError)
  else if !rlAllowed then (db, .rateLimited)
  else if !hasAccess grants eventId token then (db, .notAdmitted)
  else
    match db.events.find? (fun e => e.id == eventId && !(e.status == EventStatus.draft)) with
    | none => (db, .eventNotFound)
    | some ev =>
      if ev.paused then (db, .salesPaused)
      else
        match db.tiers.find? (fun t => t.id == tierId && t.eventId == eventId) with
        | none => (db, .tierNotFound)
        | some tier =>
          let totalPurchased := userPaidQty db eventId userId
          let totalHeld := userHeldQty db eventId userId now
          if cfg.perEventLimit < totalPurchased + totalHeld + quantity then
            (db, .purchaseLimitExceeded cfg.perEventLimit totalPurchased totalHeld quantity)
          else if tier.perUserLimit < quantity then
            (db, .perTierLimitExceeded tier.perUserLimit)
          else
            match findActiveRes db eventId userId now with
            | some r0 => (db, .doubleHold r0.id)
            | none =>
              let reserved := tierActiveQty db tierId now
              let sold := tierSoldQty db tierId
              let available : Int := (tier.capacity : Int) - (reserved : Int) - (sold : Int)
              if (quantity : Int) > available then
                (db, .insufficientInventory available quantity)
              else
                let r : Reservation :=
                  { id := db.nextId, eventId := eventId, tierId := tierId
                    userToken := userId, quantity := quantity, status := .active
                    expiresAt := now + cfg.reservationTtlMs, createdAt := now }
                ({ db with reservations := r :: db.reservations, nextId := db.nextId + 1 },
                  .created r)

/-- The full handler outcome including the Redis grant state.  The handler
only reads the grant key (`redis.get` at reservations.ts line 75); no path
deletes it, so the grants pass through unchanged. -/
def reserve (cfg : Config) (db : DB) (grants : Grants) (rlAllowed : Bool)
    (eventId tierId : Id) (userId : UserId) (quantity : Nat) (token : Token)
    (now : Nat) : DB × Grants × ReserveResult :=
  ((reserveCore cfg db grants rlAllowed eventId tierId userId quantity token now).1,
    grants,
    (reserveCore cfg db grants rlAllowed eventId tierId userId quantity token now).2)

/-- One logical `reserve` request, as issued by a concurrent caller. -/
structure ReserveReq where
  eventId : Id
  tierId : Id
  userId : UserId
  quantity : Nat
  token : Token
  rlAllowed : Bool
deriving DecidableEq, Repr

/-- Sequential execution of a batch of reserve calls.  Under the exclusive
tier-row lock (`SELECT ... FOR UPDATE`), every interleaving of concurrent
calls is equivalent to some such sequential order. -/
def runReserves (cfg : Config) (db : DB) (grants : Grants) (now : Nat) :
    List ReserveReq → DB × List ReserveResult
  | [] => (db, [])
  | q :: qs =>
    let step := reserveCore cfg db grants q.rlAllowed q.eventId q.tierId q.userId q.quantity q.token now
    let rest := runReserves cfg step.1 grants now qs
    (rest.1, step.2 :: rest.2)

/-- Sum of the quantities of the successful results that targeted a tier. -/
def successQtyFor (tierId : Id) : List ReserveResult → Nat
  | [] => 0
  | .created r :: rest =>
    (if r.tierId == tierId then r.quantity else 0) + successQtyFor tierId rest
  | _ :: rest => successQtyFor tierId rest

/-! ## Row-update helpers (the UPDATE statements of api/src/routes/checkout.ts) -/

/-- `UPDATE reservations SET status = $s WHERE id = $id`. -/
def setResStatus (db : DB) (rid : Id) (s : ResStatus) : DB :=
  { db with reservations :=
      db.reservations.map (fun r => if r.id == rid then { r with status := s } else r) }

/-- `UPDATE reservations SET expires_at = $e WHERE id = $id AND status = 'active'`. -/
def setResExpiry (db : DB) (rid : Id) (e : Nat) : DB :=
  { db with reservations :=
      db.reservations.map (fun r =>
        if r.id == rid && r.status == ResStatus.active then { r with expiresAt := e } else r) }

/-- `UPDATE checkout_sessions SET status = $s WHERE id = $id`. -/
def setSessStatus (db : DB) (sid : Id) (s : SessStatus) : DB :=
  { db with sessions :=
      db.sessions.map (fun cs => if cs.id == sid then { cs with status := s } else cs) }

/-! ## POST /checkout/sessions (api/src/routes/checkout.ts) -/

inductive SessionResult where
  | created (s : CheckoutSession) (resExpiresAt : Nat)
  | replayedByKey (s : CheckoutSession)
  | replayedByReservation (s : CheckoutSession)
  | rateLimited
  | reservationNotFound
  | notActive (status : ResStatus)
  | expired
deriving DecidableEq, Repr

/-- The string placed in the `error` field of the JSON response, if any
(verbatim from the source). -/
def SessionResult.errorKind : SessionResult → Option String
  | .created _ _ => none
  | .replayedByKey _ => none
  | .replayedByReservation _ => none
  | .rateLimited => some "rate_limited"
  | .reservationNotFound => some "Reservation not found"
  | .notActive _ => some "Reservation is not active"
  | .expired => some "Reservation has expired"

def SessionResult.httpStatus : SessionResult → Nat
  | .created _ _ => 201
  | .replayedByKey _ => 200
  | .replayedByReservation _ => 200
  | .rateLimited => 429
  | .reservationNotFound => 404
  | .notActive _ => 409
  | .expired => 409

/-- In the source the session-creation TTL extension is a hardcoded
`+3 minutes` (`extendedExpiresAt.setMinutes(getMinutes() + 3)`), independent
of `appConfig.reservation.ttlMinutes`. -/
def sessionExtensionMs : Nat := 3 * 60 * 1000

/-- The checkout-session-creation handler. -/
def createSession (db : DB) (rlAllowed : Bool) (idemKey : String)
    (reservationId : Id) (now : Nat) : DB × SessionResult :=
  if !rlAllowed then (db, .rateLimited)
  else
    match db.sessions.find? (fun s => s.idempotencyKey == idemKey) with
    | some s =>
      -- idempotent replay: answered from the lookup, before any reservation write
      match db.reservations.find? (fun r => r.id == s.reservationId) with
      | none => (db, .reservationNotFound)
      | some _ => (db, .replayedByKey s)
    | none =>
      match db.reservations.find? (fun r => r.id == reservationId) with
      | none => (db, .reservationNotFound)
      | some r =>
        if !(r.status == ResStatus.active) then (db, .notActive r.status)
        else if r.expiresAt ≤ now then
          (setResStatus db reservationId .expired, .expired)
        else
          match db.sessions.find?
              (fun s => s.reservationId == reservationId && s.status == SessStatus.pending) with
          | some s0 => (db, .replayedByReservation s0)
          | none =>
            let newExpires := now + sessionExtensionMs
            let db1 := setResExpiry db reservationId newExpires
            let s : CheckoutSession :=
              { id := db1.nextId, reservationId := reservationId
                idempotencyKey := idemKey, status := .pending, createdAt := now }
            ({ db1 with sessions := s :: db1.sessions, nextId := db1.nextId + 1 },
              .created s newExpires)

/-! ## Ticket generation (generateTicket in api/src/routes/checkout.ts) -/

/-- `generateTicket` mints a fresh code (uuidv4, modelled by the fresh-id
counter) and signs `code:orderId:eventId` with the process-wide secret.
`hmac secret message` stands for `createHmac(sha256, secret).update(message).digest(hex)`,
whose output is lowercase hex; the digest itself is external node crypto. -/
def generateTicket (hmac : String → String → String) (secret : String)
    (code : Nat) (orderId eventId tierId : Id) (userToken : UserId) : Ticket :=
  { orderId := orderId, eventId := eventId, tierId := tierId, userToken := userToken
    code := code
    qrSig := hmac secret (toString code ++ ":" ++ toString orderId ++ ":" ++ toString eventId) }

/-- The `quantity` tickets generated in the success branch of confirm,
with consecutive fresh codes from the uuid supply. -/
def mkTickets (hmac : String → String → String) (secret : String)
    (o : Order) (startCode n : Nat) : List Ticket :=
  (List.range n).map
    (fun i => generateTicket hmac secret (startCode + i) o.id o.eventId o.tierId o.userToken)

/-- Plain `INSERT INTO tickets ... VALUES ...` (the statement used by
confirm): violating the unique index on `code` raises error 23505, which
aborts the surrounding transaction. -/
def insertTicketsPlain (db : DB) : List Ticket → Except String DB
  | [] => .ok db
  | tk :: rest =>
    if db.tickets.any (fun e => e.code == tk.code) then .error "23505"
    else insertTicketsPlain { db with tickets := tk :: db.tickets } rest

/-- `INSERT ... ON CONFLICT (code) DO NOTHING` (the statement used by the
recovery worker's repair pass in workers/expirationWorker.ts): a duplicate
code is silently skipped. -/
def insertTicketsOnConflict (db : DB) : List Ticket → DB
  | [] => db
  | tk :: rest =>
    if db.tickets.any (fun e => e.code == tk.code) then insertTicketsOnConflict db rest
    else insertTicketsOnConflict { db with tickets := tk :: db.tickets } rest

/-! ## POST /checkout/confirm (api/src/routes/checkout.ts) -/

inductive ConfirmResult where
  | completed (order : Order) (tickets : List Ticket)
  | replayed (order : Order) (tickets : List Ticket)
  | paymentFailed
  | rateLimited
  | sessionNotFound
  | notPending (status : SessStatus)
  | reservationNotActive (status : ResStatus)
  | reservationExpired
  | serverError
deriving DecidableEq, Repr

/-- The string placed in the `error` field of the JSON response, if any
(verbatim from the source). -/
def ConfirmResult.errorKind : ConfirmResult → Option String
  | .completed _ _ => none
  | .replayed _ _ => none
  | .paymentFailed => none
  | .rateLimited => some "rate_limited"
  | .sessionNotFound => some "Checkout session not found"
  | .notPending _ => some "Checkout session is not pending"
  | .reservationNotActive _ => some "reservation_expired_or_invalid"
  | .reservationExpired => some "reservation_expired_or_invalid"
  | .serverError => some "Failed to confirm checkout"

def ConfirmResult.httpStatus : ConfirmResult → Nat
  | .completed _ _ => 201
  | .replayed _ _ => 200
  | .paymentFailed => 200
  | .rateLimited => 429
  | .sessionNotFound => 404
  | .notPending _ => 409
  | .reservationNotActive _ => 409
  | .reservationExpired => 409
  | .serverError => 500

/-- The join `checkout_sessions JOIN reservations JOIN ticket_tiers WHERE cs.id = $1`. -/
def findSessionJoin (db : DB) (checkoutId : Id) :
    Option (CheckoutSession × Reservation × Tier) :=
  match db.sessions.find? (fun s => s.id == checkoutId) with
  | none => none
  | some s =>
    match db.reservations.find? (fun r => r.id == s.reservationId) with
    | none => none
    | some r =>
      match db.tiers.find? (fun t => t.id == r.tierId) with
      | none => none
      | some t => some (s, r, t)

/-- The payment-confirmation handler.  Each returned `DB` is the committed
state on that exit path; a raised unique violation in the ticket inserts
rolls the whole transaction back (state unchanged) and surfaces a 500. -/
def confirm (db : DB) (rlAllowed : Bool) (checkoutId : Id) (success : Bool)
    (now : Nat) (hmac : String → String → String) (secret : String) :
    DB × ConfirmResult :=
  if !rlAllowed then (db, .rateLimited)
  else
    match findSessionJoin db checkoutId with
    | none => (db, .sessionNotFound)
    | some (s, r, t) =>
      match db.orders.find? (fun o => o.checkoutSessionId == checkoutId) with
      | some o =>
        (db, .replayed o (db.tickets.filter (fun tk => tk.orderId == o.id)))
      | none =>
        if !(s.status == SessStatus.pending) then (db, .notPending s.status)
        else if !(r.status == ResStatus.active) then
          -- rollback, then mark the session failed in a fresh transaction
          (setSessStatus db checkoutId .failed, .reservationNotActive r.status)
        else if r.expiresAt ≤ now then
          -- mark reservation and session expired, committed together
          (setSessStatus (setResStatus db r.id .expired) checkoutId .expired,
            .reservationExpired)
        else if success then
          let o : Order :=
            { id := db.nextId, checkoutSessionId := checkoutId, reservationId := r.id
              eventId := r.eventId, tierId := r.tierId, userToken := r.userToken
              quantity := r.quantity, totalPriceCents := r.quantity * t.priceCents
              status := .paid }
          let db1 := { db with orders := o :: db.orders, nextId := db.nextId + 1 }
          let existing := db1.tickets.filter (fun tk => tk.orderId == o.id)
          if existing.isEmpty then
            let tks := mkTickets hmac secret o db1.nextId r.quantity
            match insertTicketsPlain db1 tks with
            | .error _ => (db, .serverError)
            | .ok db2 =>
              let db3 :=
                setResStatus
                  (setSessStatus { db2 with nextId := db2.nextId + r.quantity }
                    checkoutId .completed)
                  r.id .converted
              (db3, .completed o tks)
          else
            let db3 := setResStatus (setSessStatus db1 checkoutId .completed) r.id .converted
            (db3, .completed o existing)
        else
          (setResStatus (setSessStatus db checkoutId .failed) r.id .canceled, .paymentFailed)

/-- Refinement model of confirm as the spec claims it: identical, except
that the ticket inserts carry `ON CONFLICT (code) DO NOTHING`, so a
duplicate code is skipped rather than aborting the transaction. -/
def confirmClaimedOnConflict (db : DB) (rlAllowed : Bool) (checkoutId : Id)
    (success : Bool) (now : Nat) (hmac : String → String → String)
    (secret : String) : DB × ConfirmResult :=
  if !rlAllowed then (db, .rateLimited)
  else
    match findSessionJoin db checkoutId with
    | none => (db, .sessionNotFound)
    | some (s, r, t) =>
      match db.orders.find? (fun o => o.checkoutSessionId == checkoutId) with
      | some o =>
        (db, .replayed o (db.tickets.filter (fun tk => tk.orderId == o.id)))
      | none =>
        if !(s.status == SessStatus.pending) then (db, .notPending s.status)
        else if !(r.status == ResStatus.active) then
          (setSessStatus db checkoutId .failed, .reservationNotActive r.status)
        else if r.expiresAt ≤ now then
          (setSessStatus (setResStatus db r.id .expired) checkoutId .expired,
            .reservationExpired)
        else if success then
          let o : Order :=
            { id := db.nextId, checkoutSessionId := checkoutId, reservationId := r.id
              eventId := r.eventId, tierId := r.tierId, userToken := r.userToken
              quantity := r.quantity, totalPriceCents := r.quantity * t.priceCents
              status := .paid }
          let db1 := { db with orders := o :: db.orders, nextId := db.nextId + 1 }
          let existing := db1.tickets.filter (fun tk => tk.orderId == o.id)
          if existing.isEmpty then
            let tks := mkTickets hmac secret o db1.nextId r.quantity
            let db2 := insertTicketsOnConflict db1 tks
            let db3 :=
              setResStatus
                (setSessStatus { db2 with nextId := db2.nextId + r.quantity }
                  checkoutId .completed)
                r.id .converted
            (db3, .completed o tks)
          else
            let db3 := setResStatus (setSessStatus db1 checkoutId .completed) r.id .converted
            (db3, .completed o existing)
        else
          (setResStatus (setSessStatus db checkoutId .failed) r.id .canceled, .paymentFailed)

/-! ## Waiting-room wave algorithm (GET /events/:id/waiting-room/status) -/

/-- The per-event wave cursor held in Redis.  `parseInt(get(...) || 0)`
yields `0` for an absent key, so `0` encodes "not initialised". -/
structure WaveState where
  waveEnd : Nat
  lastAdvance : Nat
deriving DecidableEq, Repr

/-- The initialisation block of the status handler's wave management:
`if (!waveEnd) waveEnd = Math.min(total || WAVE_SIZE, WAVE_SIZE)`, stored
(with `lastAdvance = now`) only when positive. -/
def waveInit (cfg : Config) (ws : WaveState) (total : Nat) (nowMs : Nat) : WaveState :=
  if ws.waveEnd == 0 then
    let w := min (if total == 0 then cfg.waveSize else total) cfg.waveSize
    if 0 < w then { waveEnd := w, lastAdvance := nowMs } else { ws with waveEnd := w }
  else ws

/-- The interval-gated advance block of the status handler's wave
management. -/
def waveAdvance (cfg : Config) (ws1 : WaveState) (total : Nat) (nowMs : Nat) : WaveState :=
  if ws1.waveEnd < total then
    if ws1.lastAdvance == 0 || cfg.waveIntervalMs ≤ nowMs - ws1.lastAdvance then
      let newEnd := min total (ws1.waveEnd + cfg.waveSize)
      if !(newEnd == ws1.waveEnd) then { waveEnd := newEnd, lastAdvance := nowMs } else ws1
    else ws1
  else ws1

/-- The whole wave-management block: possible initialisation followed by a
possible advance, as executed on each status poll with the sale open. -/
def waveStep (cfg : Config) (ws : WaveState) (total : Nat) (nowMs : Nat) : WaveState :=
  waveAdvance cfg (waveInit cfg ws total nowMs) total nowMs

/-- `canEnterWave` from the source. -/
def canEnterWave (position : Option Nat) (admittedEnd : Option Nat) : Bool :=
  match position, admittedEnd with
  | some p, some ae => !(ae == 0) && p ≤ ae
  | _, _ => false

/-- `estimateETA` from the source (`Math.ceil` on Nats is `(a + b - 1) / b`). -/
def estimateETA (position : Option Nat) (admittedEnd waveSize advanceIntervalMs : Nat) : Nat :=
  match position with
  | none => 0
  | some p =>
    if p ≤ admittedEnd then 0
    else
      let positionsAhead := p - admittedEnd
      let wavesAhead := (positionsAhead + waveSize - 1) / waveSize
      let secondsPerWave := (advanceIntervalMs + 999) / 1000
      wavesAhead * secondsPerWave

/-- Eligibility as computed by the status handler after the wave step
(including the paused override and the position/total guards). -/
def statusCanEnter (ev : Event) (position : Option Nat) (total waveEnd : Nat) : Bool :=
  let c :=
    match position with
    | some p => if 0 < total then canEnterWave (some p) (some waveEnd) && !ev.paused else false
    | none => false
  if ev.paused then false else c

/-! ## Rate limiter (api/src/utils/rateLimiter.ts and src/utils/rateLimiter.ts) -/

/-- The outcomes of the Redis commands issued by one rateLimit invocation.
An unreachable store makes each command raise (`Except.error`). -/
structure StoreOutcome where
  incrResult : Except String Nat
  expireResult : Except String Unit
  ttlResult : Except String Int
deriving Repr

structure RateLimitVerdict where
  allowed : Bool
  remaining : Nat
  retryAfter : Option Int
deriving DecidableEq, Repr

/-- `rateLimit` from api/src/utils/rateLimiter.ts: no try/catch, so a
raising store command propagates to the caller (whose top-level handler
answers 500). -/
def rateLimitApi (store : StoreOutcome) (limit : Nat) (windowSeconds : Int) :
    Except String RateLimitVerdict := do
  let count ← store.incrResult
  if count == 1 then
    let _ ← store.expireResult
  if limit < count then
    let ttl ← store.ttlResult
    pure { allowed := false, remaining := 0
           retryAfter := some (if 0 < ttl then ttl else windowSeconds) }
  else
    pure { allowed := true, remaining := limit - count, retryAfter := none }

/-- `rateLimit` from src/utils/rateLimiter.ts: the same body wrapped in
try/catch, failing open (`allowed: true, remaining: limit`) when any store
command raises. -/
def rateLimitSrc (store : StoreOutcome) (limit : Nat) (windowSeconds : Int) :
    RateLimitVerdict :=
  match rateLimitApi store limit windowSeconds with
  | .ok v => v
  | .error _ => { allowed := true, remaining := limit, retryAfter := none }

/-! ## Identity fallback (waiting-room join and GET /events/:id/reservations) -/

/-- JavaScript `header || token`: an absent or empty header falls back to
the waiting-room token. -/
def fallbackUserId (header : Option String) (token : Token) : UserId :=
  match header with
  | some h => if h.isEmpty then token else h
  | none => token

/-- The record the join handler writes to Redis for a freshly minted token. -/
structure JoinRecord where
  eventId : Id
  token : Token
  userId : UserId
  joinedAt : Nat
deriving DecidableEq, Repr

def joinRecord (eventId : Id) (header : Option String) (token : Token)
    (now : Nat) : JoinRecord :=
  { eventId := eventId, token := token, userId := fallbackUserId header token, joinedAt := now }

/-- `ORDER BY created_at DESC LIMIT 1` over a result set. -/
def latestByCreated (l : List Reservation) : Option Reservation :=
  l.foldl
    (fun acc r =>
      match acc with
      | none => some r
      | some b => if b.createdAt < r.createdAt then some r else some b)
    none

/-- GET /events/:id/reservations: the lookup keys the `user_token` column
on `header x-user-id || token`. -/
def lookupActiveReservation (db : DB) (eventId : Id) (header : Option String)
    (token : Token) (now : Nat) : Option Reservation :=
  let userId := fallbackUserId header token
  latestByCreated (db.reservations.filter
    (fun r => r.eventId == eventId && r.userToken == userId &&
      r.status == ResStatus.active && decide (now < r.expiresAt)))

/-- The same lookup keyed directly on a canonical user id (used to state
which identity the endpoint actually queries by). -/
def lookupByUserId (db : DB) (eventId : Id) (userId : UserId) (now : Nat) :
    Option Reservation :=
  latestByCreated (db.reservations.filter
    (fun r => r.eventId == eventId && r.userToken == userId &&
      r.status == ResStatus.active && decide (now < r.expiresAt)))

/-! ## Occupancy (the quantity a tier's capacity must dominate, invariant I1) -/

def occupancy (db : DB) (tierId : Id) (now : Nat) : Nat :=
  tierActiveQty db tierId now + tierSoldQty db tierId

/-- Number of checkout sessions carrying a given idempotency key. -/
def sessionCountForKey (db : DB) (k : String) : Nat :=
  (db.sessions.filter (fun s => s.idempotencyKey == k)).length

/-- Number of orders referencing a given checkout session. -/
def orderCountForSession (db : DB) (cid : Id) : Nat :=
  (db.orders.filter (fun o => o.checkoutSessionId == cid)).length

/-! ## Concrete states used by counterexamples and witnesses -/

/-- A one-event, one-tier store with capacity 10 and no rows yet. -/
def exDb : DB :=
  { events := [{ id := 1, onSaleAt := 0, status := .onSale, paused := false }]
    tiers := [{ id := 1, eventId := 1, priceCents := 5000, capacity := 10, perUserLimit := 4 }]
    reservations := [], sessions := [], orders := [], tickets := []
    nextId := 100 }

def exGrants : Grants := [(1, "tok")]

/-- exDb with a capacity-1 tier, for the oversell scenario. -/
def exDbCap1 : DB :=
  { exDb with tiers := [{ id := 1, eventId := 1, priceCents := 5000, capacity := 1, perUserLimit := 4 }] }

def exGrants3 : Grants := [(1, "tokA"), (1, "tokB"), (1, "tokC")]

def exOversellReqs : List ReserveReq :=
  [ { eventId := 1, tierId := 1, userId := "alice", quantity := 1, token := "tokA", rlAllowed := true }
  , { eventId := 1, tierId := 1, userId := "bob", quantity := 1, token := "tokB", rlAllowed := true }
  , { eventId := 1, tierId := 1, userId := "carol", quantity := 1, token := "tokC", rlAllowed := true } ]

/-- A store holding an active reservation (id 10, quantity 2, expires at
600000) and a pending checkout session (id 20, key "k1") for it. -/
def exDbSession : DB :=
  { exDb with
    reservations :=
      [ { id := 10, eventId := 1, tierId := 1, userToken := "alice", quantity := 2
          status := .active, expiresAt := 600000, createdAt := 100000 } ]
    sessions :=
      [ { id := 20, reservationId := 10, idempotencyKey := "k1", status := .pending
          createdAt := 100000 } ]
    nextId := 50 }

/-- exDbSession with the reservation already past its expiry at the probe
instant 700000. -/
def exDbExpired : DB := exDbSession

/-- exDbSession with a planted ticket whose code collides with the first
code the confirm handler would mint (order id 50, codes from 51). -/
def exDbCollide : DB :=
  { exDbSession with
    tickets :=
      [ { orderId := 49, eventId := 1, tierId := 1, userToken := "mallory"
          code := 51, qrSig := "x" } ] }

/-- A concrete stand-in for the external HMAC-SHA256 hex digest. -/
def exHmac : String → String → String := fun secret msg => secret ++ "/" ++ msg

/-- A store whose commands all raise (the ephemeral store is unreachable). -/
def exDeadStore : StoreOutcome :=
  { incrResult := .error "ECONNREFUSED"
    expireResult := .error "ECONNREFUSED"
    ttlResult := .error "ECONNREFUSED" }

def exEvent : Event := { id := 1, onSaleAt := 0, status := .onSale, paused := false }

/-- exDb with a paid order of quantity 3 for user "alice". -/
def exDbPaid : DB :=
  { exDb with
    orders :=
      [ { id := 40, checkoutSessionId := 41, reservationId := 42, eventId := 1, tierId := 1
          userToken := "alice", quantity := 3, totalPriceCents := 15000, status := .paid } ] }

/-- exDb with one active reservation (id 10) and no checkout session yet. -/
def exDbRes : DB :=
  { exDb with
    reservations :=
      [ { id := 10, eventId := 1, tierId := 1, userToken := "alice", quantity := 2
          status := .active, expiresAt := 600000, createdAt := 100000 } ]
    nextId := 50 }

/-- exDbSession extended with a second, canceled reservation (id 30). -/
def exDbC3 : DB :=
  { exDbSession with
    reservations :=
      [ { id := 10, eventId := 1, tierId := 1, userToken := "alice", quantity := 2
          status := .active, expiresAt := 600000, createdAt := 100000 }
      , { id := 30, eventId := 1, tierId := 1, userToken := "bob", quantity := 1
          status := .canceled, expiresAt := 900000, createdAt := 100000 } ] }

/-! # Theorems -/

/-- C9: when the ephemeral store is unreachable (the counter increment
raises), the api-tree rate limiter propagates the error to its caller, so
every route using it answers 500 instead of proceeding; only the src-tree
variant fails open with `allowed = true`.  This contradicts the fail-open
requirement and the repository's own fix notes, which state that
`api/src/utils/rateLimiter.ts` wraps the store commands in try/catch. -/
theorem rateLimiter_failure_behaviour (store : StoreOutcome) (limit : Nat)
    (w : Int) (e : String) (h : store.incrResult = .error e) :
    rateLimitApi store limit w = .error e ∧
    rateLimitSrc store limit w = { allowed := true, remaining := limit, retryAfter := none } := by
  refine ⟨?_, ?_⟩
  · unfold rateLimitApi
    rw [h]
    rfl
  · unfold rateLimitSrc rateLimitApi
    rw [h]
    rfl

/-- Witness for C9 at a concrete dead store. -/
theorem rateLimiter_failure_behaviour_witness :
    rateLimitApi exDeadStore 5 60 = .error "ECONNREFUSED" ∧
    rateLimitSrc exDeadStore 5 60 = { allowed := true, remaining := 5, retryAfter := none } :=
  rateLimiter_failure_behaviour exDeadStore 5 60 "ECONNREFUSED" rfl

/-- C10: with no X-User-Id header the waiting-room token is the identity --
join records the token as the canonical user id and the reservation lookup
keys `user_token` on the token; with a (non-empty) header, the header value
is used and the query-string token plays no role in the lookup. -/
theorem identity_fallback (db : DB) (eventId : Id) (h : String)
    (token token1 token2 : Token) (now : Nat) (hne : h ≠ "") :
    (joinRecord eventId none token now).userId = token ∧
    lookupActiveReservation db eventId none token now = lookupByUserId db eventId token now ∧
    (joinRecord eventId (some h) token now).userId = h ∧
    lookupActiveReservation db eventId (some h) token1 now =
      lookupActiveReservation db eventId (some h) token2 now := by
  have hemp : h.isEmpty = false := by
    cases hb : h.isEmpty
    · rfl
    · exact absurd ((String.isEmpty_iff h).mp hb) hne
  refine ⟨rfl, rfl, ?_, ?_⟩
  · simp [joinRecord, fallbackUserId, hemp]
  · simp [lookupActiveReservation, fallbackUserId, hemp]

/-- Witness for C10 at concrete inputs. -/
theorem identity_fallback_witness :
    (joinRecord 1 none "tok" 5).userId = "tok" ∧
    lookupActiveReservation exDb 1 none "tok" 5 = lookupByUserId exDb 1 "tok" 5 ∧
    (joinRecord 1 (some "alice") "tok" 5).userId = "alice" ∧
    lookupActiveReservation exDb 1 (some "alice") "t1" 5 =
      lookupActiveReservation exDb 1 (some "alice") "t2" 5 :=
  identity_fallback exDb 1 "alice" "tok" "t1" "t2" 5 (by decide)

/-- C7 counterexample: on the very first status poll with an empty queue
(`total = 0`), the source initialises the wave cursor to
`min(total || WAVE_SIZE, WAVE_SIZE) = WAVE_SIZE = 100`, not to
`min(total, wave_size) = 0` as the claim states. -/
theorem wave_init_empty_queue_counterexample :
    (waveStep defaultConfig { waveEnd := 0, lastAdvance := 0 } 0 5000).waveEnd = 100 ∧
    ¬ (waveStep defaultConfig { waveEnd := 0, lastAdvance := 0 } 0 5000).waveEnd
        = min 0 defaultConfig.waveSize := by
  decide

/-- C7 (amended): on the first poll after sale opens the cursor is
initialised to `min(total, wave_size)` when the queue is non-empty and to
`wave_size` when `total = 0`; on later polls, with the cursor and
last-advance timestamp set, the cursor advances to
`min(total, wave_end + wave_size)` with `last_advance := now` exactly when
`total > wave_end` and `now - last_advance ≥ wave_interval`, and is
untouched otherwise; a token at position `p ≥ 1` is eligible iff
`p ≤ wave_end` and the event is not paused; and at the default
configuration `eta_seconds = ceil(max(0, p - wave_end) / wave_size) *
wave_interval`, where for naturals `ceil(a / b) = (a + b - 1) / b`. -/
theorem wave_algorithm (cfg : Config) (ws : WaveState) (ev : Event)
    (total now p we la : Nat)
    (hsize : 1 ≤ cfg.waveSize) (hint : 1 ≤ cfg.waveIntervalMs) (hnow : 1 ≤ now) :
    (1 ≤ total → waveStep cfg { waveEnd := 0, lastAdvance := la } total now
        = { waveEnd := min total cfg.waveSize, lastAdvance := now }) ∧
    (waveStep cfg { waveEnd := 0, lastAdvance := la } 0 now
        = { waveEnd := cfg.waveSize, lastAdvance := now }) ∧
    (1 ≤ ws.waveEnd → 1 ≤ ws.lastAdvance →
      (ws.waveEnd < total → cfg.waveIntervalMs ≤ now - ws.lastAdvance →
        waveStep cfg ws total now
          = { waveEnd := min total (ws.waveEnd + cfg.waveSize), lastAdvance := now }) ∧
      (¬ (ws.waveEnd < total ∧ cfg.waveIntervalMs ≤ now - ws.lastAdvance) →
        waveStep cfg ws total now = ws)) ∧
    (1 ≤ p → 1 ≤ total →
      statusCanEnter ev (some p) total we = (decide (p ≤ we) && !ev.paused)) ∧
    (estimateETA (some p) we 100 30000 = ((p - we) + 99) / 100 * 30) := by
  have hnoadv : ∀ w : Nat, waveAdvance cfg { waveEnd := w, lastAdvance := now } total now
      = { waveEnd := w, lastAdvance := now } := by
    intro w
    unfold waveAdvance
    have hnz : (now == 0) = false := by simp; omega
    have hg : decide (cfg.waveIntervalMs ≤ now - now) = false := by
      simp only [decide_eq_false_iff_not]
      omega
    simp only [hnz, Bool.false_or, hg, Bool.false_eq_true, if_false]
    split <;> rfl
  refine ⟨?_, ?_, ?_, ?_, ?_⟩
  · intro htot
    have h0 : (total == 0) = false := by simp; omega
    have hinit : waveInit cfg { waveEnd := 0, lastAdvance := la } total now
        = { waveEnd := min total cfg.waveSize, lastAdvance := now } := by
      unfold waveInit
      simp only [h0, Bool.false_eq_true, if_false, beq_self_eq_true, if_true]
      rw [if_pos (Nat.lt_min.mpr ⟨htot, hsize⟩)]
    unfold waveStep
    rw [hinit, hnoadv]
  · have hinit : waveInit cfg { waveEnd := 0, lastAdvance := la } 0 now
        = { waveEnd := cfg.waveSize, lastAdvance := now } := by
      unfold waveInit
      simp only [beq_self_eq_true, if_true, Nat.min_self]
      rw [if_pos (show 0 < cfg.waveSize by omega)]
    unfold waveStep
    rw [hinit]
    unfold waveAdvance
    rw [if_neg (by omega)]
  · intro hwe hla
    have hwz : (ws.waveEnd == 0) = false := by simp; omega
    have hlz : (ws.lastAdvance == 0) = false := by simp; omega
    have hinit : waveInit cfg ws total now = ws := by
      unfold waveInit
      simp only [hwz, Bool.false_eq_true, if_false]
    constructor
    · intro htot hgap
      unfold waveStep
      rw [hinit]
      unfold waveAdvance
      rw [if_pos htot]
      have hg : (ws.lastAdvance == 0 || decide (cfg.waveIntervalMs ≤ now - ws.lastAdvance))
          = true := by
        simp only [hlz, Bool.false_or, decide_eq_true_eq]
        exact hgap
      rw [if_pos hg]
      have hne : (!(min total (ws.waveEnd + cfg.waveSize) == ws.waveEnd)) = true := by
        simp only [Bool.not_eq_eq_eq_not, Bool.not_true, beq_eq_false_iff_ne, ne_eq]
        omega
      rw [if_pos hne]
    · intro hneg
      unfold waveStep
      rw [hinit]
      unfold waveAdvance
      by_cases htot : ws.waveEnd < total
      · rw [if_pos htot]
        have hg : (ws.lastAdvance == 0 || decide (cfg.waveIntervalMs ≤ now - ws.lastAdvance))
            = false := by
          simp only [hlz, Bool.false_or, decide_eq_false_iff_not]
          intro hc
          exact hneg ⟨htot, hc⟩
        rw [hg]
        simp only [Bool.false_eq_true, if_false]
      · rw [if_neg htot]
  · intro hp htot
    unfold statusCanEnter canEnterWave
    by_cases hpause : ev.paused
    · simp [hpause]
    · simp only [hpause, Bool.false_eq_true, if_false, Bool.not_false, Bool.and_true]
      rw [if_pos (show 0 < total by omega)]
      rcases Nat.eq_zero_or_pos we with hwe | hwe
      · subst hwe
        simp only [beq_self_eq_true, Bool.not_true, Bool.false_and]
        have hd : (decide (p ≤ 0)) = false := by
          simp only [decide_eq_false_iff_not]
          omega
        rw [hd]
      · have hwz : (we == 0) = false := by simp; omega
        simp [hwz]
  · unfold estimateETA
    simp only []
    split
    · rename_i hple
      have hz : p - we = 0 := by omega
      rw [hz]
    · norm_num

/-- Witness for C7 at concrete inputs exercising init (empty and non-empty
queue), a gated advance, eligibility, and the ETA formula. -/
theorem wave_algorithm_witness :
    (waveStep defaultConfig { waveEnd := 0, lastAdvance := 0 } 250 40000
        = { waveEnd := min 250 defaultConfig.waveSize, lastAdvance := 40000 }) ∧
    (waveStep defaultConfig { waveEnd := 0, lastAdvance := 0 } 0 40000
        = { waveEnd := defaultConfig.waveSize, lastAdvance := 40000 }) ∧
    (waveStep defaultConfig { waveEnd := 100, lastAdvance := 10 } 250 40000
        = { waveEnd := min 250 (100 + defaultConfig.waveSize), lastAdvance := 40000 }) ∧
    (statusCanEnter exEvent (some 150) 250 100 = (decide (150 ≤ 100) && !exEvent.paused)) ∧
    (estimateETA (some 150) 100 100 30000 = ((150 - 100) + 99) / 100 * 30) := by
  have h := wave_algorithm defaultConfig { waveEnd := 100, lastAdvance := 10 } exEvent
    250 40000 150 100 0 (by decide) (by decide) (by decide)
  exact ⟨h.1 (by decide), h.2.1,
    (h.2.2.1 (by decide) (by decide)).1 (by decide) (by decide),
    h.2.2.2.1 (by decide) (by decide), h.2.2.2.2⟩

/-! ### Shared lemmas about the row-update helpers -/

theorem setResStatus_orders (db : DB) (rid : Id) (st : ResStatus) :
    (setResStatus db rid st).orders = db.orders := rfl

theorem setResStatus_tickets (db : DB) (rid : Id) (st : ResStatus) :
    (setResStatus db rid st).tickets = db.tickets := rfl

theorem setSessStatus_orders (db : DB) (sid : Id) (st : SessStatus) :
    (setSessStatus db sid st).orders = db.orders := rfl

theorem setSessStatus_tickets (db : DB) (sid : Id) (st : SessStatus) :
    (setSessStatus db sid st).tickets = db.tickets := rfl

/-- Every reservation row carrying the targeted id has the new status
after `setResStatus`. -/
theorem setResStatus_status_of_id (db : DB) (rid : Id) (st : ResStatus) :
    ∀ rr ∈ (setResStatus db rid st).reservations, rr.id = rid → rr.status = st := by
  intro rr hmem hid
  rcases List.mem_map.mp hmem with ⟨x, _hx, hfx⟩
  by_cases hxe : (x.id == rid) = true
  · rw [if_pos hxe] at hfx
    rw [← hfx]
  · rw [if_neg hxe] at hfx
    subst hfx
    exact absurd (by simpa using hid) hxe

/-- Every session row carrying the targeted id has the new status after
`setSessStatus`. -/
theorem setSessStatus_status_of_id (db : DB) (sid : Id) (st : SessStatus) :
    ∀ ss ∈ (setSessStatus db sid st).sessions, ss.id = sid → ss.status = st := by
  intro ss hmem hid
  rcases List.mem_map.mp hmem with ⟨x, _hx, hfx⟩
  by_cases hxe : (x.id == sid) = true
  · rw [if_pos hxe] at hfx
    rw [← hfx]
  · rw [if_neg hxe] at hfx
    subst hfx
    exact absurd (by simpa using hid) hxe

/-- C3 counterexample: `create_session` on a reservation past its
`expires_at` answers 409 with error string "Reservation has expired", not
with the error kind `reservation_expired_or_invalid` the claim states
(that kind is only produced by the confirm handler). -/
theorem createSession_expired_kind_counterexample :
    (createSession exDbExpired true "k2" 10 700000).2.errorKind
        = some "Reservation has expired" ∧
    ¬ (createSession exDbExpired true "k2" 10 700000).2.errorKind
        = some "reservation_expired_or_invalid" := by
  decide

/-- C3 (amended): `confirm` on a pending session with no existing order
whose (still `active`) reservation is past `expires_at` marks the
reservation `expired` and the session `expired` in one committed state,
creates no order or ticket, and surfaces the error kind
`reservation_expired_or_invalid`; `create_session` on a non-`active`
reservation answers 409 "Reservation is not active" without creating a
session, and on an `active` but expired reservation marks it `expired`
and answers 409 "Reservation has expired" without creating a session. -/
theorem expired_hold_rejection (db : DB) (cid : Id) (s : CheckoutSession)
    (r : Reservation) (t : Tier) (success : Bool) (now : Nat)
    (hmac : String → String → String) (secret : String)
    (k : String) (rid : Id) (r2 : Reservation)
    (hjoin : findSessionJoin db cid = some (s, r, t))
    (hnoord : db.orders.find? (fun o => o.checkoutSessionId == cid) = none)
    (hpend : s.status = SessStatus.pending)
    (hact : r.status = ResStatus.active)
    (hexp : r.expiresAt ≤ now)
    (hkey : db.sessions.find? (fun x => x.idempotencyKey == k) = none)
    (hres : db.reservations.find? (fun x => x.id == rid) = some r2) :
    (confirm db true cid success now hmac secret
        = (setSessStatus (setResStatus db r.id .expired) cid .expired, .reservationExpired)) ∧
    ConfirmResult.errorKind .reservationExpired = some "reservation_expired_or_invalid" ∧
    (confirm db true cid success now hmac secret).1.orders = db.orders ∧
    (confirm db true cid success now hmac secret).1.tickets = db.tickets ∧
    (∀ rr ∈ (confirm db true cid success now hmac secret).1.reservations,
        rr.id = r.id → rr.status = .expired) ∧
    (∀ ss ∈ (confirm db true cid success now hmac secret).1.sessions,
        ss.id = cid → ss.status = .expired) ∧
    (¬ r2.status = ResStatus.active →
      createSession db true k rid now = (db, .notActive r2.status) ∧
      SessionResult.errorKind (.notActive r2.status) = some "Reservation is not active") ∧
    (r2.status = ResStatus.active → r2.expiresAt ≤ now →
      createSession db true k rid now = (setResStatus db rid .expired, .expired) ∧
      (createSession db true k rid now).1.sessions = db.sessions ∧
      SessionResult.errorKind SessionResult.expired = some "Reservation has expired") := by
  have heq : confirm db true cid success now hmac secret
      = (setSessStatus (setResStatus db r.id .expired) cid .expired, .reservationExpired) := by
    unfold confirm
    rw [hjoin]
    dsimp only
    rw [hnoord]
    dsimp only
    rw [hpend, hact]
    simp only [beq_self_eq_true, Bool.not_true, Bool.false_eq_true, if_false]
    rw [if_pos hexp]
  refine ⟨heq, rfl, ?_, ?_, ?_, ?_, ?_, ?_⟩
  · rw [heq]
    rfl
  · rw [heq]
    rfl
  · rw [heq]
    intro rr hmem hid
    exact setResStatus_status_of_id db r.id .expired rr hmem hid
  · rw [heq]
    exact setSessStatus_status_of_id (setResStatus db r.id .expired) cid .expired
  · intro hna
    have hb : (r2.status == ResStatus.active) = false := by
      simp only [beq_eq_false_iff_ne, ne_eq]
      exact hna
    constructor
    · unfold createSession
      rw [hkey]
      dsimp only
      rw [hres]
      dsimp only
      rw [hb]
      rfl
    · rfl
  · intro ha hexp2
    have heq2 : createSession db true k rid now = (setResStatus db rid .expired, .expired) := by
      unfold createSession
      rw [hkey]
      dsimp only
      rw [hres]
      dsimp only
      rw [ha]
      simp only [beq_self_eq_true, Bool.not_true, Bool.false_eq_true, if_false]
      rw [if_pos hexp2]
    exact ⟨heq2, by rw [heq2]; rfl, rfl⟩

/-- Witness for C3: the expired-confirm path and the not-active
create-session path at concrete states. -/
theorem expired_hold_rejection_witness :
    (confirm exDbC3 true 20 true 700000 exHmac "sec"
        = (setSessStatus (setResStatus exDbC3 10 .expired) 20 .expired, .reservationExpired)) ∧
    (confirm exDbC3 true 20 true 700000 exHmac "sec").1.orders = exDbC3.orders ∧
    (confirm exDbC3 true 20 true 700000 exHmac "sec").1.tickets = exDbC3.tickets ∧
    createSession exDbC3 true "k2" 30 700000 = (exDbC3, .notActive ResStatus.canceled) ∧
    SessionResult.errorKind (.notActive ResStatus.canceled) = some "Reservation is not active" := by
  have h := expired_hold_rejection exDbC3 20
    { id := 20, reservationId := 10, idempotencyKey := "k1", status := .pending
      createdAt := 100000 }
    { id := 10, eventId := 1, tierId := 1, userToken := "alice", quantity := 2
      status := .active, expiresAt := 600000, createdAt := 100000 }
    { id := 1, eventId := 1, priceCents := 5000, capacity := 10, perUserLimit := 4 }
    true 700000 exHmac "sec" "k2" 30
    { id := 30, eventId := 1, tierId := 1, userToken := "bob", quantity := 1
      status := .canceled, expiresAt := 900000, createdAt := 100000 }
    (by decide) (by decide) (by decide) (by decide) (by decide) (by decide) (by decide)
  exact ⟨h.1, h.2.2.1, h.2.2.2.1, (h.2.2.2.2.2.2.1 (by decide)).1,
    (h.2.2.2.2.2.2.1 (by decide)).2⟩

/-- The reservation handler never writes the Redis grant state: it only
reads the access key, so the grants survive every outcome. -/
theorem reserve_grants_eq (cfg : Config) (db : DB) (grants : Grants) (rl : Bool)
    (e t : Id) (u : UserId) (q : Nat) (tok : Token) (now : Nat) :
    (reserve cfg db grants rl e t u q tok now).2.1 = grants := rfl

/-- C8 counterexample: after a successful reserve, the very same grant
still passes the admission check; a second reservation attempt with it is
rejected as a double hold (409), not as `not_admitted` -- the handler
never deletes the `waiting_room_access` key, so the grant does authorise a
second reservation attempt before its TTL elapses. -/
theorem grant_not_consumed_counterexample :
    ((reserve defaultConfig exDb exGrants true 1 1 "alice" 1 "tok" 1000).2.2
      = .created { id := 100, eventId := 1, tierId := 1, userToken := "alice", quantity := 1
                   status := .active, expiresAt := 181000, createdAt := 1000 }) ∧
    ((reserve defaultConfig exDb exGrants true 1 1 "alice" 1 "tok" 1000).2.1 = exGrants) ∧
    (hasAccess (reserve defaultConfig exDb exGrants true 1 1 "alice" 1 "tok" 1000).2.1 1 "tok"
      = true) ∧
    ((reserve defaultConfig
        (reserve defaultConfig exDb exGrants true 1 1 "alice" 1 "tok" 1000).1
        exGrants true 1 1 "alice" 1 "tok" 1000).2.2 = .doubleHold 100) ∧
    ¬ ((reserve defaultConfig
        (reserve defaultConfig exDb exGrants true 1 1 "alice" 1 "tok" 1000).1
        exGrants true 1 1 "alice" 1 "tok" 1000).2.2 = .notAdmitted) := by
  decide

/-- C8 (amended): creating a reservation does not consume the admission
grant.  The handler only reads the grant key and returns the grant state
unchanged, so before the grant TTL elapses the same token passes the
admission check again; a repeated reserve for the same (event, user) is
instead rejected downstream -- by the purchase-limit check or, failing
that, by the double-hold check -- and in particular neither yields
`not_admitted` nor creates a second reservation. -/
theorem admission_grant_not_consumed (cfg : Config) (db : DB) (grants : Grants)
    (e t : Id) (u : UserId) (q : Nat) (tok : Token) (now : Nat) (ev : Event) (tier : Tier)
    (httl : 0 < cfg.reservationTtlMs)
    (hq : q ≠ 0)
    (hacc : hasAccess grants e tok = true)
    (hev : db.events.find? (fun x => x.id == e && !(x.status == EventStatus.draft)) = some ev)
    (hpaused : ev.paused = false)
    (hti : db.tiers.find? (fun x => x.id == t && x.eventId == e) = some tier)
    (hlim : userPaidQty db e u + userHeldQty db e u now + q ≤ cfg.perEventLimit)
    (hper : q ≤ tier.perUserLimit)
    (hnores : findActiveRes db e u now = none)
    (hav : (q : Int) ≤ (tier.capacity : Int) - (tierActiveQty db t now : Int)
        - (tierSoldQty db t : Int)) :
    (reserve cfg db grants true e t u q tok now
      = ({ db with
            reservations :=
              { id := db.nextId, eventId := e, tierId := t, userToken := u, quantity := q
                status := .active, expiresAt := now + cfg.reservationTtlMs, createdAt := now }
                :: db.reservations
            nextId := db.nextId + 1 }, grants, .created
              { id := db.nextId, eventId := e, tierId := t, userToken := u, quantity := q
                status := .active, expiresAt := now + cfg.reservationTtlMs, createdAt := now })) ∧
    ((reserve cfg (reserve cfg db grants true e t u q tok now).1 grants true e t u q tok now).2.1
      = grants) ∧
    (((reserve cfg (reserve cfg db grants true e t u q tok now).1 grants
          true e t u q tok now).2.2
        = .purchaseLimitExceeded cfg.perEventLimit (userPaidQty db e u)
            (q + userHeldQty db e u now) q ∧
      (reserve cfg (reserve cfg db grants true e t u q tok now).1 grants
          true e t u q tok now).1
        = (reserve cfg db grants true e t u q tok now).1) ∨
     ((reserve cfg (reserve cfg db grants true e t u q tok now).1 grants
          true e t u q tok now).2.2
        = .doubleHold db.nextId ∧
      (reserve cfg (reserve cfg db grants true e t u q tok now).1 grants
          true e t u q tok now).1
        = (reserve cfg db grants true e t u q tok now).1)) ∧
    ¬ ((reserve cfg (reserve cfg db grants true e t u q tok now).1 grants
          true e t u q tok now).2.2 = .notAdmitted) := by
  have hbq : (q == 0) = false := by simp; omega
  have hlt : now < now + cfg.reservationTtlMs := by omega
  have hcore1 : reserveCore cfg db grants true e t u q tok now
      = ({ db with
            reservations :=
              { id := db.nextId, eventId := e, tierId := t, userToken := u, quantity := q
                status := .active, expiresAt := now + cfg.reservationTtlMs, createdAt := now }
                :: db.reservations
            nextId := db.nextId + 1 }, .created
              { id := db.nextId, eventId := e, tierId := t, userToken := u, quantity := q
                status := .active, expiresAt := now + cfg.reservationTtlMs, createdAt := now }) := by
    unfold reserveCore
    rw [hbq]
    simp only [Bool.false_eq_true, if_false, Bool.not_true, hacc]
    rw [hev]
    dsimp only
    rw [hpaused]
    simp only [Bool.false_eq_true, if_false]
    rw [hti]
    dsimp only
    rw [if_neg (by omega)]
    rw [if_neg (by omega)]
    rw [hnores]
    dsimp only
    rw [if_neg (by omega)]
  have hpq : userPaidQty
      { db with
        reservations :=
          { id := db.nextId, eventId := e, tierId := t, userToken := u, quantity := q
            status := .active, expiresAt := now + cfg.reservationTtlMs, createdAt := now }
            :: db.reservations
        nextId := db.nextId + 1 } e u = userPaidQty db e u := rfl
  have hheld : userHeldQty
      { db with
        reservations :=
          { id := db.nextId, eventId := e, tierId := t, userToken := u, quantity := q
            status := .active, expiresAt := now + cfg.reservationTtlMs, createdAt := now }
            :: db.reservations
        nextId := db.nextId + 1 } e u now = q + userHeldQty db e u now := by
    unfold userHeldQty
    dsimp only
    rw [List.filter_cons]
    simp only [beq_self_eq_true, Bool.and_self, Bool.true_and, Bool.and_true,
      decide_eq_true_eq]
    rw [if_pos hlt]
    simp [qtySum]
  have hfa : findActiveRes
      { db with
        reservations :=
          { id := db.nextId, eventId := e, tierId := t, userToken := u, quantity := q
            status := .active, expiresAt := now + cfg.reservationTtlMs, createdAt := now }
            :: db.reservations
        nextId := db.nextId + 1 } e u now
      = some { id := db.nextId, eventId := e, tierId := t, userToken := u, quantity := q
               status := .active, expiresAt := now + cfg.reservationTtlMs, createdAt := now } := by
    unfold findActiveRes
    dsimp only
    exact List.find?_cons_of_pos _ (by simp [hlt])
  have hcore2 : reserveCore cfg
      { db with
        reservations :=
          { id := db.nextId, eventId := e, tierId := t, userToken := u, quantity := q
            status := .active, expiresAt := now + cfg.reservationTtlMs, createdAt := now }
            :: db.reservations
        nextId := db.nextId + 1 } grants true e t u q tok now
      = ({ db with
            reservations :=
              { id := db.nextId, eventId := e, tierId := t, userToken := u, quantity := q
                status := .active, expiresAt := now + cfg.reservationTtlMs, createdAt := now }
                :: db.reservations
            nextId := db.nextId + 1 },
          if cfg.perEventLimit < userPaidQty db e u + (q + userHeldQty db e u now) + q
          then .purchaseLimitExceeded cfg.perEventLimit (userPaidQty db e u)
            (q + userHeldQty db e u now) q
          else .doubleHold db.nextId) := by
    unfold reserveCore
    rw [hbq]
    simp only [Bool.false_eq_true, if_false, Bool.not_true, hacc]
    rw [show ({ db with
        reservations :=
          { id := db.nextId, eventId := e, tierId := t, userToken := u, quantity := q
            status := .active, expiresAt := now + cfg.reservationTtlMs, createdAt := now }
            :: db.reservations
        nextId := db.nextId + 1 } : DB).events.find?
          (fun x => x.id == e && !(x.status == EventStatus.draft)) = some ev from hev]
    dsimp only
    rw [hpaused]
    simp only [Bool.false_eq_true, if_false]
    rw [show ({ db with
        reservations :=
          { id := db.nextId, eventId := e, tierId := t, userToken := u, quantity := q
            status := .active, expiresAt := now + cfg.reservationTtlMs, createdAt := now }
            :: db.reservations
        nextId := db.nextId + 1 } : DB).tiers.find?
          (fun x => x.id == t && x.eventId == e) = some tier from hti]
    dsimp only
    rw [hpq, hheld]
    by_cases hl2 : cfg.perEventLimit < userPaidQty db e u + (q + userHeldQty db e u now) + q
    · rw [if_pos hl2, if_pos hl2]
    · rw [if_neg hl2, if_neg hl2]
      rw [if_neg (show ¬ tier.perUserLimit < q by omega)]
      rw [hfa]
  have hfirst : reserve cfg db grants true e t u q tok now
      = ({ db with
            reservations :=
              { id := db.nextId, eventId := e, tierId := t, userToken := u, quantity := q
                status := .active, expiresAt := now + cfg.reservationTtlMs, createdAt := now }
                :: db.reservations
            nextId := db.nextId + 1 }, grants, .created
              { id := db.nextId, eventId := e, tierId := t, userToken := u, quantity := q
                status := .active, expiresAt := now + cfg.reservationTtlMs, createdAt := now }) := by
    unfold reserve
    rw [hcore1]
  refine ⟨hfirst, rfl, ?_, ?_⟩
  · rw [hfirst]
    unfold reserve
    dsimp only
    rw [hcore2]
    by_cases hl2 : cfg.perEventLimit < userPaidQty db e u + (q + userHeldQty db e u now) + q
    · left
      rw [if_pos hl2]
      exact ⟨rfl, rfl⟩
    · right
      rw [if_neg hl2]
      exact ⟨rfl, rfl⟩
  · rw [hfirst]
    unfold reserve
    dsimp only
    rw [hcore2]
    by_cases hl2 : cfg.perEventLimit < userPaidQty db e u + (q + userHeldQty db e u now) + q
    · rw [if_pos hl2]
      intro hc
      exact ReserveResult.noConfusion hc
    · rw [if_neg hl2]
      intro hc
      exact ReserveResult.noConfusion hc

/-- Witness for C8: a successful reserve followed by a retry with the same
grant, which passes admission and is rejected as a double hold. -/
theorem admission_grant_not_consumed_witness :
    (reserve defaultConfig exDb exGrants true 1 1 "alice" 1 "tok" 1000
      = ({ exDb with
            reservations :=
              [ { id := 100, eventId := 1, tierId := 1, userToken := "alice", quantity := 1
                  status := .active, expiresAt := 181000, createdAt := 1000 } ]
            nextId := 101 }, exGrants, .created
              { id := 100, eventId := 1, tierId := 1, userToken := "alice", quantity := 1
                status := .active, expiresAt := 181000, createdAt := 1000 })) ∧
    ((reserve defaultConfig
        (reserve defaultConfig exDb exGrants true 1 1 "alice" 1 "tok" 1000).1
        exGrants true 1 1 "alice" 1 "tok" 1000).2.2 = .doubleHold 100) ∧
    ¬ ((reserve defaultConfig
        (reserve defaultConfig exDb exGrants true 1 1 "alice" 1 "tok" 1000).1
        exGrants true 1 1 "alice" 1 "tok" 1000).2.2 = .notAdmitted) := by
  have h := admission_grant_not_consumed defaultConfig exDb exGrants 1 1 "alice" 1 "tok" 1000
    { id := 1, onSaleAt := 0, status := .onSale, paused := false }
    { id := 1, eventId := 1, priceCents := 5000, capacity := 10, perUserLimit := 4 }
    (by decide) (by decide) (by decide) (by decide) (by decide) (by decide) (by decide)
    (by decide) (by decide) (by decide)
  refine ⟨h.1, ?_, h.2.2.2⟩
  rcases h.2.2.1 with ⟨hres, _⟩ | ⟨hres, _⟩
  · exact absurd hres (by decide)
  · exact hres

/-- Every active reservation row carrying the targeted id has the new
expiry after `setResExpiry` (the UPDATE is filtered on `status = active`). -/
theorem setResExpiry_expiry_of_id (db : DB) (rid : Id) (e : Nat) :
    ∀ rr ∈ (setResExpiry db rid e).reservations,
      rr.id = rid → rr.status = ResStatus.active → rr.expiresAt = e := by
  intro rr hmem hid hst
  rcases List.mem_map.mp hmem with ⟨x, _hx, hfx⟩
  by_cases hxe : (x.id == rid && x.status == ResStatus.active) = true
  · rw [if_pos hxe] at hfx
    rw [← hfx]
  · rw [if_neg hxe] at hfx
    subst hfx
    exact absurd (by simp [hid, hst]) hxe

/-- C4: two `create_session` calls with the same idempotency key and
reservation produce the same session identifier; the first call gives the
reservation a fresh payment window, setting `expires_at` to `now + 3 min`
(which extends it, the old expiry being at most `now + 3 min`); the second
call is answered from the existing-session lookup before any reservation
write, so it mutates nothing. -/
theorem session_idempotency (db : DB) (k : String) (rid : Id) (r : Reservation)
    (now1 now2 : Nat)
    (hkey : db.sessions.find? (fun s => s.idempotencyKey == k) = none)
    (hres : db.reservations.find? (fun x => x.id == rid) = some r)
    (hact : r.status = ResStatus.active)
    (hunexp : now1 < r.expiresAt)
    (hnopend : db.sessions.find?
        (fun s => s.reservationId == rid && s.status == SessStatus.pending) = none)
    (hold : r.expiresAt ≤ now1 + sessionExtensionMs) :
    (createSession db true k rid now1
      = ({ setResExpiry db rid (now1 + sessionExtensionMs) with
            sessions :=
              { id := db.nextId, reservationId := rid, idempotencyKey := k
                status := .pending, createdAt := now1 } :: db.sessions
            nextId := db.nextId + 1 },
          .created
            { id := db.nextId, reservationId := rid, idempotencyKey := k
              status := .pending, createdAt := now1 }
            (now1 + sessionExtensionMs))) ∧
    (∀ rr ∈ (createSession db true k rid now1).1.reservations,
        rr.id = rid → rr.status = ResStatus.active →
          rr.expiresAt = now1 + sessionExtensionMs ∧ r.expiresAt ≤ rr.expiresAt) ∧
    (createSession (createSession db true k rid now1).1 true k rid now2
      = ((createSession db true k rid now1).1,
          .replayedByKey
            { id := db.nextId, reservationId := rid, idempotencyKey := k
              status := .pending, createdAt := now1 })) := by
  have hbeq : (r.status == ResStatus.active) = true := by rw [hact]; rfl
  have hrid : (r.id == rid) = true := by
    have h := List.find?_some hres
    simpa using h
  have heq1 : createSession db true k rid now1
      = ({ setResExpiry db rid (now1 + sessionExtensionMs) with
            sessions :=
              { id := db.nextId, reservationId := rid, idempotencyKey := k
                status := .pending, createdAt := now1 } :: db.sessions
            nextId := db.nextId + 1 },
          .created
            { id := db.nextId, reservationId := rid, idempotencyKey := k
              status := .pending, createdAt := now1 }
            (now1 + sessionExtensionMs)) := by
    unfold createSession
    rw [hkey]
    dsimp only
    rw [hres]
    dsimp only
    rw [hbeq]
    simp only [Bool.not_true, Bool.false_eq_true, if_false]
    rw [if_neg (show ¬ r.expiresAt ≤ now1 by omega)]
    rw [hnopend]
    rfl
  refine ⟨heq1, ?_, ?_⟩
  · rw [heq1]
    intro rr hmem hid hst
    have hmem2 : rr ∈ (setResExpiry db rid (now1 + sessionExtensionMs)).reservations := hmem
    have := setResExpiry_expiry_of_id db rid (now1 + sessionExtensionMs) rr hmem2 hid hst
    exact ⟨this, by omega⟩
  · rw [heq1]
    unfold createSession
    dsimp only
    rw [List.find?_cons_of_pos _ (by simp)]
    dsimp only
    have hfind2 : (setResExpiry db rid (now1 + sessionExtensionMs)).reservations.find?
        (fun x => x.id == rid)
        = some { r with expiresAt := now1 + sessionExtensionMs } := by
      unfold setResExpiry
      dsimp only
      rw [List.find?_map]
      have hcomp : ((fun x : Reservation => x.id == rid) ∘
          (fun x : Reservation =>
            if x.id == rid && x.status == ResStatus.active
            then { x with expiresAt := now1 + sessionExtensionMs } else x))
          = (fun x : Reservation => x.id == rid) := by
        funext x
        by_cases hxe : (x.id == rid && x.status == ResStatus.active) = true
        · simp only [Function.comp_apply, if_pos hxe]
        · simp only [Function.comp_apply, if_neg hxe]
      rw [hcomp, hres]
      show some _ = some _
      dsimp only
      rw [if_pos (show (r.id == rid && r.status == ResStatus.active) = true by
        simp [hrid, hbeq])]
    rw [hfind2]
    rfl

/-- Witness for C4 at a concrete state. -/
theorem session_idempotency_witness :
    (createSession exDbRes true "k1" 10 500000
      = ({ setResExpiry exDbRes 10 (500000 + sessionExtensionMs) with
            sessions :=
              [ { id := 50, reservationId := 10, idempotencyKey := "k1"
                  status := .pending, createdAt := 500000 } ]
            nextId := 51 },
          .created
            { id := 50, reservationId := 10, idempotencyKey := "k1"
              status := .pending, createdAt := 500000 }
            (500000 + sessionExtensionMs))) ∧
    (createSession (createSession exDbRes true "k1" 10 500000).1 true "k1" 10 510000
      = ((createSession exDbRes true "k1" 10 500000).1,
          .replayedByKey
            { id := 50, reservationId := 10, idempotencyKey := "k1"
              status := .pending, createdAt := 500000 })) := by
  have h := session_idempotency exDbRes "k1" 10
    { id := 10, eventId := 1, tierId := 1, userToken := "alice", quantity := 2
      status := .active, expiresAt := 600000, createdAt := 100000 }
    500000 510000 (by decide) (by decide) (by decide) (by decide) (by decide) (by decide)
  exact ⟨h.1, h.2.2⟩

/-- C5: with per-event limit `L`, a user with `p` paid and `h` actively
held quantities is refused any reserve of quantity `q` with `p + h + q > L`
by a 403 `purchase_limit_exceeded` carrying the breakdown
(alreadyPurchased = p, activeHolds = h, requested = q), while a reserve
with `p + h + q = L` succeeds when the remaining preconditions hold (which
entail `h = 0`, since a user with an active hold is stopped by the
double-hold check). -/
theorem purchase_cap (cfg : Config) (db : DB) (grants : Grants)
    (e t : Id) (u : UserId) (q : Nat) (tok : Token) (now : Nat) (ev : Event) (tier : Tier)
    (hq : q ≠ 0)
    (hacc : hasAccess grants e tok = true)
    (hev : db.events.find? (fun x => x.id == e && !(x.status == EventStatus.draft)) = some ev)
    (hpaused : ev.paused = false)
    (hti : db.tiers.find? (fun x => x.id == t && x.eventId == e) = some tier) :
    (cfg.perEventLimit < userPaidQty db e u + userHeldQty db e u now + q →
      reserve cfg db grants true e t u q tok now
        = (db, grants, .purchaseLimitExceeded cfg.perEventLimit (userPaidQty db e u)
            (userHeldQty db e u now) q) ∧
      (ReserveResult.purchaseLimitExceeded cfg.perEventLimit (userPaidQty db e u)
            (userHeldQty db e u now) q).httpStatus = 403) ∧
    (userPaidQty db e u + userHeldQty db e u now + q = cfg.perEventLimit →
      q ≤ tier.perUserLimit →
      findActiveRes db e u now = none →
      (q : Int) ≤ (tier.capacity : Int) - (tierActiveQty db t now : Int)
        - (tierSoldQty db t : Int) →
      reserve cfg db grants true e t u q tok now
        = ({ db with
              reservations :=
                { id := db.nextId, eventId := e, tierId := t, userToken := u, quantity := q
                  status := .active, expiresAt := now + cfg.reservationTtlMs, createdAt := now }
                  :: db.reservations
              nextId := db.nextId + 1 }, grants, .created
                { id := db.nextId, eventId := e, tierId := t, userToken := u, quantity := q
                  status := .active, expiresAt := now + cfg.reservationTtlMs
                  createdAt := now })) := by
  have hbq : (q == 0) = false := by simp; omega
  constructor
  · intro hgt
    constructor
    · have hcore : reserveCore cfg db grants true e t u q tok now
          = (db, .purchaseLimitExceeded cfg.perEventLimit (userPaidQty db e u)
              (userHeldQty db e u now) q) := by
        unfold reserveCore
        rw [hbq]
        simp only [Bool.false_eq_true, if_false, Bool.not_true, hacc]
        rw [hev]
        dsimp only
        rw [hpaused]
        simp only [Bool.false_eq_true, if_false]
        rw [hti]
        dsimp only
        rw [if_pos hgt]
      unfold reserve
      rw [hcore]
    · rfl
  · intro hle hper hnores hav
    have hcore : reserveCore cfg db grants true e t u q tok now
        = ({ db with
              reservations :=
                { id := db.nextId, eventId := e, tierId := t, userToken := u, quantity := q
                  status := .active, expiresAt := now + cfg.reservationTtlMs, createdAt := now }
                  :: db.reservations
              nextId := db.nextId + 1 }, .created
                { id := db.nextId, eventId := e, tierId := t, userToken := u, quantity := q
                  status := .active, expiresAt := now + cfg.reservationTtlMs
                  createdAt := now }) := by
      unfold reserveCore
      rw [hbq]
      simp only [Bool.false_eq_true, if_false, Bool.not_true, hacc]
      rw [hev]
      dsimp only
      rw [hpaused]
      simp only [Bool.false_eq_true, if_false]
      rw [hti]
      dsimp only
      rw [if_neg (by omega)]
      rw [if_neg (by omega)]
      rw [hnores]
      dsimp only
      rw [if_neg (by omega)]
    unfold reserve
    rw [hcore]

/-- Witness for C5: user "alice" with 3 paid and 0 held is refused q = 4
(3 + 0 + 4 > 6) with the breakdown, and succeeds for q = 3 at the exact
boundary 3 + 0 + 3 = 6. -/
theorem purchase_cap_witness :
    (reserve defaultConfig exDbPaid exGrants true 1 1 "alice" 4 "tok" 1000
      = (exDbPaid, exGrants, .purchaseLimitExceeded 6 3 0 4)) ∧
    (ReserveResult.purchaseLimitExceeded 6 3 0 4).httpStatus = 403 ∧
    (reserve defaultConfig exDbPaid exGrants true 1 1 "alice" 3 "tok" 1000
      = ({ exDbPaid with
            reservations :=
              [ { id := 100, eventId := 1, tierId := 1, userToken := "alice", quantity := 3
                  status := .active, expiresAt := 181000, createdAt := 1000 } ]
            nextId := 101 }, exGrants, .created
              { id := 100, eventId := 1, tierId := 1, userToken := "alice", quantity := 3
                status := .active, expiresAt := 181000, createdAt := 1000 })) := by
  have h4 := purchase_cap defaultConfig exDbPaid exGrants 1 1 "alice" 4 "tok" 1000
    { id := 1, onSaleAt := 0, status := .onSale, paused := false }
    { id := 1, eventId := 1, priceCents := 5000, capacity := 10, perUserLimit := 4 }
    (by decide) (by decide) (by decide) (by decide) (by decide)
  have h3 := purchase_cap defaultConfig exDbPaid exGrants 1 1 "alice" 3 "tok" 1000
    { id := 1, onSaleAt := 0, status := .onSale, paused := false }
    { id := 1, eventId := 1, priceCents := 5000, capacity := 10, perUserLimit := 4 }
    (by decide) (by decide) (by decide) (by decide) (by decide)
  refine ⟨(h4.1 (by decide)).1, (h4.1 (by decide)).2,
    h3.2 (by decide) (by decide) (by decide) (by decide)⟩

/-- Plain inserts succeed (prepending the rows) when no new code collides
with a stored one and the new codes are pairwise distinct. -/
theorem insertTicketsPlain_ok (tks : List Ticket) : ∀ (db : DB),
    (∀ tk ∈ tks, ∀ old ∈ db.tickets, ¬ old.code = tk.code) →
    tks.Pairwise (fun a b => ¬ a.code = b.code) →
    insertTicketsPlain db tks = .ok { db with tickets := tks.reverse ++ db.tickets } := by
  induction tks with
  | nil =>
    intro db _ _
    simp [insertTicketsPlain]
  | cons tk rest ih =>
    intro db hfresh hpair
    unfold insertTicketsPlain
    rw [if_neg ?notdup]
    case notdup =>
      intro hc
      rcases List.any_eq_true.mp hc with ⟨old, hold, holdc⟩
      exact hfresh tk (List.mem_cons_self tk rest) old hold (by simpa using holdc)
    rw [ih { db with tickets := tk :: db.tickets } ?fresh (List.Pairwise.of_cons hpair)]
    case fresh =>
      intro tk2 h2 old holdmem
      rcases List.mem_cons.mp holdmem with hkh | htl
      · subst hkh
        exact (List.pairwise_cons.mp hpair).1 tk2 h2
      · exact hfresh tk2 (List.mem_cons_of_mem tk h2) old htl
    simp [List.reverse_cons, List.append_assoc]

/-- The codes minted for one confirm call are consecutive values from the
fresh supply. -/
theorem mkTickets_code (hmac : String → String → String) (secret : String)
    (o : Order) (startCode n : Nat) :
    (mkTickets hmac secret o startCode n).map Ticket.code
      = (List.range n).map (fun i => startCode + i) := by
  simp [mkTickets, generateTicket, List.map_map]

theorem mkTickets_length (hmac : String → String → String) (secret : String)
    (o : Order) (startCode n : Nat) :
    (mkTickets hmac secret o startCode n).length = n := by
  simp [mkTickets]

/-- The minted codes are pairwise distinct. -/
theorem mkTickets_pairwise (hmac : String → String → String) (secret : String)
    (o : Order) (startCode n : Nat) :
    (mkTickets hmac secret o startCode n).Pairwise (fun a b => ¬ a.code = b.code) := by
  unfold mkTickets
  rw [List.pairwise_map]
  have h := List.pairwise_lt_range n
  exact h.imp (by intro a b hab; simp [generateTicket]; omega)

/-- Every minted code is at least the start of the supply. -/
theorem mkTickets_code_ge (hmac : String → String → String) (secret : String)
    (o : Order) (startCode n : Nat) :
    ∀ tk ∈ mkTickets hmac secret o startCode n, startCode ≤ tk.code := by
  intro tk hmem
  rcases List.mem_map.mp hmem with ⟨i, _, hfx⟩
  subst hfx
  simp [generateTicket]

/-- Every minted ticket is signed over `code:orderId:eventId` with the
process secret, and belongs to the order. -/
theorem mkTickets_sig (hmac : String → String → String) (secret : String)
    (o : Order) (startCode n : Nat) :
    ∀ tk ∈ mkTickets hmac secret o startCode n,
      tk.qrSig = hmac secret
        (toString tk.code ++ ":" ++ toString o.id ++ ":" ++ toString o.eventId) ∧
      tk.orderId = o.id ∧ tk.eventId = o.eventId ∧ tk.userToken = o.userToken := by
  intro tk hmem
  rcases List.mem_map.mp hmem with ⟨i, _, hfx⟩
  subst hfx
  exact ⟨rfl, rfl, rfl, rfl⟩

/-- Codes minted from the top of the supply collide with no stored code. -/
theorem mkTickets_fresh (db : DB) (hmac : String → String → String) (secret : String)
    (n : Nat) (hcol : ∀ old ∈ db.tickets, old.code < db.nextId + 1) :
    ∀ (o : Order), ∀ tk ∈ mkTickets hmac secret o (db.nextId + 1) n,
      ∀ old ∈ db.tickets, ¬ old.code = tk.code := by
  intro o tk hmem old holdmem hc
  have h1 := mkTickets_code_ge hmac secret o (db.nextId + 1) n tk hmem
  have h2 := hcol old holdmem
  omega

/-- The success path of confirm, evaluated: it creates the order row,
mints `quantity` signed tickets from the fresh supply, inserts them with
plain INSERTs, and marks the session completed and the reservation
converted, all in one committed state. -/
theorem confirm_success_eq (db : DB) (cid : Id) (s : CheckoutSession)
    (r : Reservation) (t : Tier) (now : Nat)
    (hmac : String → String → String) (secret : String)
    (hjoin : findSessionJoin db cid = some (s, r, t))
    (hnoord : db.orders.find? (fun o => o.checkoutSessionId == cid) = none)
    (hpend : s.status = SessStatus.pending)
    (hact : r.status = ResStatus.active)
    (hunexp : now < r.expiresAt)
    (hstray : db.tickets.filter (fun tk => tk.orderId == db.nextId) = [])
    (hcol : ∀ old ∈ db.tickets, old.code < db.nextId + 1) :
    confirm db true cid true now hmac secret
      = (setResStatus
          (setSessStatus
            { db with
              orders :=
                { id := db.nextId, checkoutSessionId := cid, reservationId := r.id
                  eventId := r.eventId, tierId := r.tierId, userToken := r.userToken
                  quantity := r.quantity, totalPriceCents := r.quantity * t.priceCents
                  status := .paid } :: db.orders
              tickets :=
                (mkTickets hmac secret
                  { id := db.nextId, checkoutSessionId := cid, reservationId := r.id
                    eventId := r.eventId, tierId := r.tierId, userToken := r.userToken
                    quantity := r.quantity, totalPriceCents := r.quantity * t.priceCents
                    status := .paid } (db.nextId + 1) r.quantity).reverse ++ db.tickets
              nextId := db.nextId + 1 + r.quantity }
            cid .completed)
          r.id .converted,
        .completed
          { id := db.nextId, checkoutSessionId := cid, reservationId := r.id
            eventId := r.eventId, tierId := r.tierId, userToken := r.userToken
            quantity := r.quantity, totalPriceCents := r.quantity * t.priceCents
            status := .paid }
          (mkTickets hmac secret
            { id := db.nextId, checkoutSessionId := cid, reservationId := r.id
              eventId := r.eventId, tierId := r.tierId, userToken := r.userToken
              quantity := r.quantity, totalPriceCents := r.quantity * t.priceCents
              status := .paid } (db.nextId + 1) r.quantity)) := by
  unfold confirm
  rw [hjoin]
  dsimp only
  rw [hnoord]
  dsimp only
  rw [hpend, hact]
  simp only [beq_self_eq_true, Bool.not_true, Bool.false_eq_true, if_false]
  rw [if_neg (show ¬ r.expiresAt ≤ now by omega)]
  simp only [if_true]
  rw [hstray]
  simp only [List.isEmpty_nil, if_true]
  rw [insertTicketsPlain_ok
    (mkTickets hmac secret
      { id := db.nextId, checkoutSessionId := cid, reservationId := r.id
        eventId := r.eventId, tierId := r.tierId, userToken := r.userToken
        quantity := r.quantity, totalPriceCents := r.quantity * t.priceCents
        status := .paid } (db.nextId + 1) r.quantity)
    { db with
      orders :=
        { id := db.nextId, checkoutSessionId := cid, reservationId := r.id
          eventId := r.eventId, tierId := r.tierId, userToken := r.userToken
          quantity := r.quantity, totalPriceCents := r.quantity * t.priceCents
          status := .paid } :: db.orders
      nextId := db.nextId + 1 }
    (mkTickets_fresh db hmac secret r.quantity hcol _)
    (mkTickets_pairwise hmac secret _ _ _)]

/-- Ticket inserts only touch the tickets table. -/
theorem insertTicketsPlain_fields (tks : List Ticket) : ∀ (db db2 : DB),
    insertTicketsPlain db tks = .ok db2 →
    db2.orders = db.orders ∧ db2.sessions = db.sessions ∧
    db2.reservations = db.reservations ∧ db2.nextId = db.nextId := by
  induction tks with
  | nil =>
    intro db db2 h
    cases h
    exact ⟨rfl, rfl, rfl, rfl⟩
  | cons tk rest ih =>
    intro db db2 h
    unfold insertTicketsPlain at h
    by_cases hc : (db.tickets.any (fun e => e.code == tk.code)) = true
    · rw [if_pos hc] at h
      cases h
    · rw [if_neg hc] at h
      exact ih { db with tickets := tk :: db.tickets } db2 h

/-- Branch analysis of `createSession`: either the stored sessions are
untouched, or exactly the one new pending session is prepended, and then
only because the idempotency-key lookup found nothing. -/
theorem createSession_sessions (db : DB) (rl : Bool) (k : String) (rid : Id) (now : Nat) :
    (createSession db rl k rid now).1.sessions = db.sessions ∨
    ((createSession db rl k rid now).1.sessions
        = { id := db.nextId, reservationId := rid, idempotencyKey := k
            status := .pending, createdAt := now } :: db.sessions ∧
      db.sessions.find? (fun x => x.idempotencyKey == k) = none) := by
  unfold createSession
  split
  · exact Or.inl rfl
  split
  next s hfound =>
    split
    · exact Or.inl rfl
    · exact Or.inl rfl
  next hnone =>
    split
    · exact Or.inl rfl
    next r hr =>
      split
      · exact Or.inl rfl
      split
      · exact Or.inl rfl
      split
      next s0 h0 => exact Or.inl rfl
      next h1 => exact Or.inr ⟨rfl, hnone⟩

/-- Branch analysis of `confirm`: either the orders table is untouched, or
exactly one new order for this session is prepended, and then only because
the existing-order lookup found nothing. -/
theorem confirm_orders (db : DB) (rl : Bool) (cid : Id) (suc : Bool) (now : Nat)
    (hmac : String → String → String) (secret : String) :
    (confirm db rl cid suc now hmac secret).1.orders = db.orders ∨
    (∃ o : Order, (confirm db rl cid suc now hmac secret).1.orders = o :: db.orders ∧
      o.checkoutSessionId = cid ∧
      db.orders.find? (fun x => x.checkoutSessionId == cid) = none) := by
  unfold confirm
  split
  · exact Or.inl rfl
  split
  · exact Or.inl rfl
  next s r t hjoin =>
    split
    next o ho => exact Or.inl rfl
    next hnoord =>
      split
      · exact Or.inl rfl
      split
      · exact Or.inl rfl
      split
      · exact Or.inl rfl
      split
      · -- success branch
        dsimp only
        split
        · -- no existing tickets: plain inserts
          split
          next herr => exact Or.inl rfl
          next db2 hok =>
            refine Or.inr ⟨{ id := db.nextId, checkoutSessionId := cid,
                             reservationId := r.id, eventId := r.eventId,
                             tierId := r.tierId, userToken := r.userToken,
                             quantity := r.quantity,
                             totalPriceCents := r.quantity * t.priceCents,
                             status := .paid }, ?_, rfl, hnoord⟩
            show (setResStatus (setSessStatus _ cid .completed) r.id .converted).orders = _
            rw [setResStatus_orders, setSessStatus_orders]
            exact (insertTicketsPlain_fields _ _ _ hok).1
        · exact Or.inr ⟨_, rfl, rfl, hnoord⟩
      · exact Or.inl rfl

/-- C6 counterexample: the confirm handler inserts tickets with plain
INSERTs (checkout.ts line 629 carries no ON CONFLICT clause).  With a
stored ticket whose code collides with a minted one, confirm aborts the
whole transaction (500, state unchanged) instead of skipping the duplicate
as the claimed on-conflict-do-nothing insert would. -/
theorem confirm_not_onConflict_counterexample :
    (confirm exDbCollide true 20 true 200000 exHmac "sec").2 = .serverError ∧
    (confirm exDbCollide true 20 true 200000 exHmac "sec").1 = exDbCollide ∧
    ¬ (confirm exDbCollide true 20 true 200000 exHmac "sec"
        = confirmClaimedOnConflict exDbCollide true 20 true 200000 exHmac "sec") := by
  decide

/-- C6 (amended): on payment success, confirm generates exactly `quantity`
tickets, each with a fresh code from the uuid supply (pairwise distinct
and distinct from every stored code) and
`qr_sig = HMAC-SHA256(secret, code : order_id : event_id)` (lowercase hex
by the external digest); the tickets are inserted with plain INSERTs --
not on-conflict-do-nothing, which only the recovery worker's repair pass
uses -- so a duplicate code aborts the transaction instead of being
skipped. -/
theorem confirm_success_tickets (db : DB) (cid : Id) (s : CheckoutSession)
    (r : Reservation) (t : Tier) (now : Nat)
    (hmac : String → String → String) (secret : String)
    (hjoin : findSessionJoin db cid = some (s, r, t))
    (hnoord : db.orders.find? (fun o => o.checkoutSessionId == cid) = none)
    (hpend : s.status = SessStatus.pending)
    (hact : r.status = ResStatus.active)
    (hunexp : now < r.expiresAt)
    (hstray : db.tickets.filter (fun tk => tk.orderId == db.nextId) = [])
    (hcol : ∀ old ∈ db.tickets, old.code < db.nextId + 1) :
    (confirm db true cid true now hmac secret
      = (setResStatus
          (setSessStatus
            { db with
              orders :=
                { id := db.nextId, checkoutSessionId := cid, reservationId := r.id
                  eventId := r.eventId, tierId := r.tierId, userToken := r.userToken
                  quantity := r.quantity, totalPriceCents := r.quantity * t.priceCents
                  status := .paid } :: db.orders
              tickets :=
                (mkTickets hmac secret
                  { id := db.nextId, checkoutSessionId := cid, reservationId := r.id
                    eventId := r.eventId, tierId := r.tierId, userToken := r.userToken
                    quantity := r.quantity, totalPriceCents := r.quantity * t.priceCents
                    status := .paid } (db.nextId + 1) r.quantity).reverse ++ db.tickets
              nextId := db.nextId + 1 + r.quantity }
            cid .completed)
          r.id .converted,
        .completed
          { id := db.nextId, checkoutSessionId := cid, reservationId := r.id
            eventId := r.eventId, tierId := r.tierId, userToken := r.userToken
            quantity := r.quantity, totalPriceCents := r.quantity * t.priceCents
            status := .paid }
          (mkTickets hmac secret
            { id := db.nextId, checkoutSessionId := cid, reservationId := r.id
              eventId := r.eventId, tierId := r.tierId, userToken := r.userToken
              quantity := r.quantity, totalPriceCents := r.quantity * t.priceCents
              status := .paid } (db.nextId + 1) r.quantity))) ∧
    (∀ o : Order,
      (mkTickets hmac secret o (db.nextId + 1) r.quantity).length = r.quantity ∧
      (mkTickets hmac secret o (db.nextId + 1) r.quantity).Pairwise
        (fun a b => ¬ a.code = b.code) ∧
      (∀ tk ∈ mkTickets hmac secret o (db.nextId + 1) r.quantity,
        tk.qrSig = hmac secret
          (toString tk.code ++ ":" ++ toString o.id ++ ":" ++ toString o.eventId)) ∧
      (∀ tk ∈ mkTickets hmac secret o (db.nextId + 1) r.quantity,
        ∀ old ∈ db.tickets, ¬ old.code = tk.code)) ∧
    (confirm db true cid true now hmac secret).1.tickets.length
      = r.quantity + db.tickets.length := by
  have heq := confirm_success_eq db cid s r t now hmac secret
    hjoin hnoord hpend hact hunexp hstray hcol
  refine ⟨heq, ?_, ?_⟩
  · intro o
    exact ⟨mkTickets_length hmac secret o (db.nextId + 1) r.quantity,
      mkTickets_pairwise hmac secret o (db.nextId + 1) r.quantity,
      fun tk hmem => (mkTickets_sig hmac secret o (db.nextId + 1) r.quantity tk hmem).1,
      mkTickets_fresh db hmac secret r.quantity hcol o⟩
  · rw [heq]
    show ((mkTickets hmac secret _ (db.nextId + 1) r.quantity).reverse ++ db.tickets).length
      = r.quantity + db.tickets.length
    rw [List.length_append, List.length_reverse, mkTickets_length]

/-- Witness for C6: a confirm success on a clean state mints exactly two
signed tickets for the order. -/
theorem confirm_success_tickets_witness :
    ((confirm exDbSession true 20 true 200000 exHmac "sec").2
      = .completed
          { id := 50, checkoutSessionId := 20, reservationId := 10
            eventId := 1, tierId := 1, userToken := "alice"
            quantity := 2, totalPriceCents := 10000, status := .paid }
          (mkTickets exHmac "sec"
            { id := 50, checkoutSessionId := 20, reservationId := 10
              eventId := 1, tierId := 1, userToken := "alice"
              quantity := 2, totalPriceCents := 10000, status := .paid } 51 2)) ∧
    (mkTickets exHmac "sec"
      { id := 50, checkoutSessionId := 20, reservationId := 10
        eventId := 1, tierId := 1, userToken := "alice"
        quantity := 2, totalPriceCents := 10000, status := .paid } 51 2).length = 2 ∧
    (confirm exDbSession true 20 true 200000 exHmac "sec").1.tickets.length = 2 := by
  have h := confirm_success_tickets exDbSession 20
    { id := 20, reservationId := 10, idempotencyKey := "k1", status := .pending
      createdAt := 100000 }
    { id := 10, eventId := 1, tierId := 1, userToken := "alice", quantity := 2
      status := .active, expiresAt := 600000, createdAt := 100000 }
    { id := 1, eventId := 1, priceCents := 5000, capacity := 10, perUserLimit := 4 }
    200000 exHmac "sec"
    (by decide) (by decide) (by decide) (by decide) (by decide) (by decide)
    (by intro old holdmem; simp [exDbSession, exDb] at holdmem)
  refine ⟨?_, ?_, ?_⟩
  · rw [h.1]
    rfl
  · exact (h.2.1 _).1
  · rw [h.2.2]
    rfl

/-- C2: two confirm(success) calls for the same session produce exactly
one order and exactly `quantity` tickets and return the same order
identifier: the first call creates the order and its tickets, and the
second call finds the existing order and returns it with its tickets
without touching the state.  Per idempotency key there is at most one
session (`createSession` only inserts after the unique-key lookup finds
nothing) and per session at most one order (`confirm` only inserts after
the existing-order lookup finds nothing). -/
theorem confirmation_idempotency (db : DB) (cid : Id) (s : CheckoutSession)
    (r : Reservation) (t : Tier) (now1 now2 : Nat)
    (hmac : String → String → String) (secret : String)
    (hsess : db.sessions.find? (fun x => x.id == cid) = some s)
    (hres : db.reservations.find? (fun x => x.id == s.reservationId) = some r)
    (hti : db.tiers.find? (fun x => x.id == r.tierId) = some t)
    (hnoord : db.orders.find? (fun x => x.checkoutSessionId == cid) = none)
    (hpend : s.status = SessStatus.pending)
    (hact : r.status = ResStatus.active)
    (hunexp : now1 < r.expiresAt)
    (hstray : db.tickets.filter (fun tk => tk.orderId == db.nextId) = [])
    (hcol : ∀ old ∈ db.tickets, old.code < db.nextId + 1) :
    ((confirm db true cid true now1 hmac secret).2
      = .completed
          { id := db.nextId, checkoutSessionId := cid, reservationId := r.id
            eventId := r.eventId, tierId := r.tierId, userToken := r.userToken
            quantity := r.quantity, totalPriceCents := r.quantity * t.priceCents
            status := .paid }
          (mkTickets hmac secret
            { id := db.nextId, checkoutSessionId := cid, reservationId := r.id
              eventId := r.eventId, tierId := r.tierId, userToken := r.userToken
              quantity := r.quantity, totalPriceCents := r.quantity * t.priceCents
              status := .paid } (db.nextId + 1) r.quantity)) ∧
    (confirm (confirm db true cid true now1 hmac secret).1 true cid true now2 hmac secret
      = ((confirm db true cid true now1 hmac secret).1,
          .replayed
            { id := db.nextId, checkoutSessionId := cid, reservationId := r.id
              eventId := r.eventId, tierId := r.tierId, userToken := r.userToken
              quantity := r.quantity, totalPriceCents := r.quantity * t.priceCents
              status := .paid }
            (mkTickets hmac secret
              { id := db.nextId, checkoutSessionId := cid, reservationId := r.id
                eventId := r.eventId, tierId := r.tierId, userToken := r.userToken
                quantity := r.quantity, totalPriceCents := r.quantity * t.priceCents
                status := .paid } (db.nextId + 1) r.quantity).reverse)) ∧
    orderCountForSession (confirm db true cid true now1 hmac secret).1 cid = 1 ∧
    ((confirm db true cid true now1 hmac secret).1.tickets.filter
        (fun tk => tk.orderId == db.nextId)).length = r.quantity ∧
    (∀ (db0 : DB) (rl : Bool) (k : String) (rid : Id) (now0 : Nat) (k0 : String),
      sessionCountForKey db0 k0 ≤ 1 →
      sessionCountForKey (createSession db0 rl k rid now0).1 k0 ≤ 1) ∧
    (∀ (db0 : DB) (rl : Bool) (cid0 : Id) (suc : Bool) (now0 : Nat) (c0 : Id),
      orderCountForSession db0 c0 ≤ 1 →
      orderCountForSession (confirm db0 rl cid0 suc now0 hmac secret).1 c0 ≤ 1) := by
  have hjoin : findSessionJoin db cid = some (s, r, t) := by
    unfold findSessionJoin
    rw [hsess]
    dsimp only
    rw [hres]
    dsimp only
    rw [hti]
  have heq := confirm_success_eq db cid s r t now1 hmac secret
    hjoin hnoord hpend hact hunexp hstray hcol
  have hsid : (s.id == cid) = true := by
    have h := List.find?_some hsess
    simpa using h
  have hrid : (r.id == s.reservationId) = true := by
    have h := List.find?_some hres
    simpa using h
  have horders3 : (confirm db true cid true now1 hmac secret).1.orders
      = { id := db.nextId, checkoutSessionId := cid, reservationId := r.id
          eventId := r.eventId, tierId := r.tierId, userToken := r.userToken
          quantity := r.quantity, totalPriceCents := r.quantity * t.priceCents
          status := .paid } :: db.orders := by
    rw [heq]
    rfl
  have htickets3 : (confirm db true cid true now1 hmac secret).1.tickets
      = (mkTickets hmac secret
          { id := db.nextId, checkoutSessionId := cid, reservationId := r.id
            eventId := r.eventId, tierId := r.tierId, userToken := r.userToken
            quantity := r.quantity, totalPriceCents := r.quantity * t.priceCents
            status := .paid } (db.nextId + 1) r.quantity).reverse ++ db.tickets := by
    rw [heq]
    rfl
  have hfilter : ((confirm db true cid true now1 hmac secret).1.tickets.filter
      (fun tk => tk.orderId == db.nextId))
      = (mkTickets hmac secret
          { id := db.nextId, checkoutSessionId := cid, reservationId := r.id
            eventId := r.eventId, tierId := r.tierId, userToken := r.userToken
            quantity := r.quantity, totalPriceCents := r.quantity * t.priceCents
            status := .paid } (db.nextId + 1) r.quantity).reverse := by
    rw [htickets3, List.filter_append]
    rw [List.filter_eq_self.mpr ?allmem, hstray, List.append_nil]
    case allmem =>
      intro tk hmem
      have hmem2 := List.mem_reverse.mp hmem
      have hoid := (mkTickets_sig hmac secret _ (db.nextId + 1) r.quantity tk hmem2).2.1
      simp [hoid]
  refine ⟨by rw [heq], ?_, ?_, ?_, ?_, ?_⟩
  · -- second call replays
    have hs3 : (confirm db true cid true now1 hmac secret).1.sessions.find?
        (fun x => x.id == cid) = some { s with status := SessStatus.completed } := by
      rw [heq]
      show (db.sessions.map _).find? _ = _
      rw [List.find?_map]
      have hcomp : ((fun x : CheckoutSession => x.id == cid) ∘
          (fun cs : CheckoutSession =>
            if cs.id == cid then { cs with status := SessStatus.completed } else cs))
          = (fun x : CheckoutSession => x.id == cid) := by
        funext x
        by_cases hx : (x.id == cid) = true
        · simp only [Function.comp_apply, if_pos hx]
        · simp only [Function.comp_apply, if_neg hx]
      rw [hcomp, hsess]
      show some _ = some _
      dsimp only
      rw [if_pos hsid]
    have hr3 : (confirm db true cid true now1 hmac secret).1.reservations.find?
        (fun x => x.id == ({ s with status := SessStatus.completed } :
          CheckoutSession).reservationId)
        = some { r with status := ResStatus.converted } := by
      rw [heq]
      show (db.reservations.map _).find? _ = _
      rw [List.find?_map]
      have hcomp : ((fun x : Reservation => x.id == s.reservationId) ∘
          (fun rr : Reservation =>
            if rr.id == r.id then { rr with status := ResStatus.converted } else rr))
          = (fun x : Reservation => x.id == s.reservationId) := by
        funext x
        by_cases hx : (x.id == r.id) = true
        · simp only [Function.comp_apply, if_pos hx]
        · simp only [Function.comp_apply, if_neg hx]
      rw [hcomp, hres]
      show some _ = some _
      dsimp only
      rw [if_pos (by simp)]
    have ht3 : (confirm db true cid true now1 hmac secret).1.tiers.find?
        (fun x => x.id == ({ r with status := ResStatus.converted } :
          Reservation).tierId) = some t := by
      rw [heq]
      exact hti
    have hjoin3 : findSessionJoin (confirm db true cid true now1 hmac secret).1 cid
        = some ({ s with status := SessStatus.completed },
            { r with status := ResStatus.converted }, t) := by
      unfold findSessionJoin
      rw [hs3]
      dsimp only
      rw [hr3]
      dsimp only
      rw [ht3]
    have hord3 : (confirm db true cid true now1 hmac secret).1.orders.find?
        (fun x => x.checkoutSessionId == cid)
        = some { id := db.nextId, checkoutSessionId := cid, reservationId := r.id
                 eventId := r.eventId, tierId := r.tierId, userToken := r.userToken
                 quantity := r.quantity, totalPriceCents := r.quantity * t.priceCents
                 status := .paid } := by
      rw [horders3]
      exact List.find?_cons_of_pos _ (by simp)
    conv_lhs => rw [confirm]
    rw [hjoin3]
    dsimp only
    rw [hord3]
    dsimp only
    rw [hfilter]
    rfl
  · -- exactly one order for this session
    unfold orderCountForSession
    rw [horders3, List.filter_cons]
    simp only [beq_self_eq_true, if_true, List.length_cons]
    rw [List.filter_eq_nil_iff.mpr (List.find?_eq_none.mp hnoord)]
    rfl
  · rw [hfilter, List.length_reverse, mkTickets_length]
  · -- at most one session per idempotency key, preserved by createSession
    intro db0 rl k rid now0 k0 hb
    rcases createSession_sessions db0 rl k rid now0 with h | ⟨h, hnone⟩
    · unfold sessionCountForKey at hb ⊢
      rw [h]
      exact hb
    · unfold sessionCountForKey at hb ⊢
      rw [h, List.filter_cons]
      by_cases hk : (k == k0) = true
      · have hkeq : k = k0 := by simpa using hk
        subst hkeq
        have h0 : db0.sessions.filter (fun x => x.idempotencyKey == k) = [] :=
          List.filter_eq_nil_iff.mpr (List.find?_eq_none.mp hnone)
        simp only [hk, if_pos]
        rw [show (fun x : CheckoutSession => x.idempotencyKey == k)
            = fun x => x.idempotencyKey == k from rfl] at h0
        simp [h0]
      · simp only [hk, Bool.false_eq_true, if_false]
        exact hb
  · -- at most one order per session, preserved by confirm
    intro db0 rl cid0 suc now0 c0 hb
    rcases confirm_orders db0 rl cid0 suc now0 hmac secret with h | ⟨o, h, hoc, hnone⟩
    · unfold orderCountForSession at hb ⊢
      rw [h]
      exact hb
    · unfold orderCountForSession at hb ⊢
      rw [h, List.filter_cons]
      by_cases hc : (o.checkoutSessionId == c0) = true
      · have hceq : cid0 = c0 := by
          have hoc2 : o.checkoutSessionId = c0 := by simpa using hc
          exact hoc.symm.trans hoc2
        subst hceq
        have h0 : db0.orders.filter (fun x => x.checkoutSessionId == cid0) = [] :=
          List.filter_eq_nil_iff.mpr (List.find?_eq_none.mp hnone)
        simp [hc, h0]
      · simp only [hc, Bool.false_eq_true, if_false]
        exact hb

/-- Witness for C2 at a concrete state: double confirm on session 20. -/
theorem confirmation_idempotency_witness :
    ((confirm exDbSession true 20 true 200000 exHmac "sec").2
      = .completed
          { id := 50, checkoutSessionId := 20, reservationId := 10, eventId := 1
            tierId := 1, userToken := "alice", quantity := 2, totalPriceCents := 10000
            status := .paid }
          (mkTickets exHmac "sec"
            { id := 50, checkoutSessionId := 20, reservationId := 10, eventId := 1
              tierId := 1, userToken := "alice", quantity := 2, totalPriceCents := 10000
              status := .paid } 51 2)) ∧
    (confirm (confirm exDbSession true 20 true 200000 exHmac "sec").1
        true 20 true 210000 exHmac "sec"
      = ((confirm exDbSession true 20 true 200000 exHmac "sec").1,
          .replayed
            { id := 50, checkoutSessionId := 20, reservationId := 10, eventId := 1
              tierId := 1, userToken := "alice", quantity := 2, totalPriceCents := 10000
              status := .paid }
            (mkTickets exHmac "sec"
              { id := 50, checkoutSessionId := 20, reservationId := 10, eventId := 1
                tierId := 1, userToken := "alice", quantity := 2, totalPriceCents := 10000
                status := .paid } 51 2).reverse)) ∧
    orderCountForSession (confirm exDbSession true 20 true 200000 exHmac "sec").1 20 = 1 := by
  have h := confirmation_idempotency exDbSession 20
    { id := 20, reservationId := 10, idempotencyKey := "k1", status := .pending
      createdAt := 100000 }
    { id := 10, eventId := 1, tierId := 1, userToken := "alice", quantity := 2
      status := .active, expiresAt := 600000, createdAt := 100000 }
    { id := 1, eventId := 1, priceCents := 5000, capacity := 10, perUserLimit := 4 }
    200000 210000 exHmac "sec"
    (by decide) (by decide) (by decide) (by decide) (by decide) (by decide) (by decide)
    (by decide) (by intro old holdmem; simp [exDbSession, exDb] at holdmem)
  exact ⟨h.1, h.2.1, h.2.2.1⟩

/-- Branch analysis of the reservation handler: every outcome either
leaves the store untouched and creates nothing, or is the insertion of the
requested reservation, guarded by the availability check
`capacity - reserved - sold ≥ quantity` against the locked tier row. -/
theorem reserveCore_spec (cfg : Config) (db : DB) (grants : Grants) (rl : Bool)
    (e t0 : Id) (u : UserId) (q : Nat) (tok : Token) (now : Nat) :
    ((reserveCore cfg db grants rl e t0 u q tok now).1 = db ∧
      ∀ r, (reserveCore cfg db grants rl e t0 u q tok now).2 ≠ .created r) ∨
    (∃ tier, db.tiers.find? (fun x => x.id == t0 && x.eventId == e) = some tier ∧
      (q : Int) + (tierActiveQty db t0 now : Int) + (tierSoldQty db t0 : Int)
        ≤ (tier.capacity : Int) ∧
      1 ≤ q ∧
      reserveCore cfg db grants rl e t0 u q tok now
        = ({ db with
              reservations :=
                { id := db.nextId, eventId := e, tierId := t0, userToken := u, quantity := q
                  status := .active, expiresAt := now + cfg.reservationTtlMs
                  createdAt := now } :: db.reservations
              nextId := db.nextId + 1 },
            .created
              { id := db.nextId, eventId := e, tierId := t0, userToken := u, quantity := q
                status := .active, expiresAt := now + cfg.reservationTtlMs
                createdAt := now })) := by
  unfold reserveCore
  split
  next hq0 => exact Or.inl ⟨rfl, fun r hc => ReserveResult.noConfusion hc⟩
  next hq0 =>
    split
    · exact Or.inl ⟨rfl, fun r hc => ReserveResult.noConfusion hc⟩
    split
    · exact Or.inl ⟨rfl, fun r hc => ReserveResult.noConfusion hc⟩
    split
    · exact Or.inl ⟨rfl, fun r hc => ReserveResult.noConfusion hc⟩
    next ev hev =>
      split
      · exact Or.inl ⟨rfl, fun r hc => ReserveResult.noConfusion hc⟩
      split
      · exact Or.inl ⟨rfl, fun r hc => ReserveResult.noConfusion hc⟩
      next tier htier =>
        dsimp only
        split
        · exact Or.inl ⟨rfl, fun r hc => ReserveResult.noConfusion hc⟩
        split
        · exact Or.inl ⟨rfl, fun r hc => ReserveResult.noConfusion hc⟩
        split
        next r0 hr0 => exact Or.inl ⟨rfl, fun r hc => ReserveResult.noConfusion hc⟩
        next hnone =>
          split
          next havail => exact Or.inl ⟨rfl, fun r hc => ReserveResult.noConfusion hc⟩
          next havail =>
            refine Or.inr ⟨tier, htier, ?_, ?_, rfl⟩
            · omega
            · have : q ≠ 0 := by simpa using hq0
              omega

/-- Occupancy after inserting one reservation row. -/
theorem occupancy_insert (db : DB) (r : Reservation) (t0 : Id) (now : Nat) :
    occupancy { db with reservations := r :: db.reservations, nextId := db.nextId + 1 } t0 now
      = (if r.tierId == t0 && r.status == ResStatus.active && decide (now < r.expiresAt)
         then r.quantity else 0) + occupancy db t0 now := by
  unfold occupancy tierActiveQty tierSoldQty
  dsimp only
  rw [List.filter_cons]
  split
  next h =>
    simp [qtySum]
    omega
  next h =>
    omega

/-- A non-created outcome contributes nothing to the success sum. -/
theorem successQtyFor_cons_ne (t0 : Id) (x : ReserveResult) (l : List ReserveResult)
    (h : ∀ r, x ≠ .created r) :
    successQtyFor t0 (x :: l) = successQtyFor t0 l := by
  cases x with
  | created r => exact absurd rfl (h r)
  | validationError => rfl
  | rateLimited => rfl
  | notAdmitted => rfl
  | eventNotFound => rfl
  | salesPaused => rfl
  | purchaseLimitExceeded a b c d => rfl
  | perTierLimitExceeded a => rfl
  | doubleHold a => rfl
  | insufficientInventory a b => rfl
  | tierNotFound => rfl

/-- The handler never touches the tier table. -/
theorem reserveCore_tiers (cfg : Config) (db : DB) (grants : Grants) (rl : Bool)
    (e t0 : Id) (u : UserId) (q : Nat) (tok : Token) (now : Nat) :
    (reserveCore cfg db grants rl e t0 u q tok now).1.tiers = db.tiers := by
  rcases reserveCore_spec cfg db grants rl e t0 u q tok now with ⟨hdb, _⟩ | ⟨_, _, _, _, heq⟩
  · rw [hdb]
  · rw [heq]

/-- The serialised batch: occupancy grows by exactly the successful
quantities, and stays within the capacity bound. -/
theorem runReserves_occupancy (cfg : Config) (grants : Grants) (now : Nat)
    (t0 : Id) (C : Nat) (httl : 0 < cfg.reservationTtlMs) :
    ∀ (reqs : List ReserveReq) (db : DB),
      (∀ tr ∈ db.tiers, tr.id = t0 → tr.capacity = C) →
      (occupancy (runReserves cfg db grants now reqs).1 t0 now
        = occupancy db t0 now + successQtyFor t0 (runReserves cfg db grants now reqs).2) ∧
      (occupancy db t0 now ≤ C →
        occupancy (runReserves cfg db grants now reqs).1 t0 now ≤ C) := by
  intro reqs
  induction reqs with
  | nil =>
    intro db hcap
    exact ⟨by simp [runReserves, successQtyFor], fun h => by simpa [runReserves] using h⟩
  | cons rq qs ih =>
    intro db hcap
    rcases reserveCore_spec cfg db grants rq.rlAllowed rq.eventId rq.tierId rq.userId
        rq.quantity rq.token now with ⟨hdb, hnc⟩ | ⟨tier, hfind, hbound, hq1, heq⟩
    · -- failed request: state unchanged, nothing added to the sum
      have hrw : runReserves cfg db grants now (rq :: qs)
          = ((runReserves cfg db grants now qs).1,
             (reserveCore cfg db grants rq.rlAllowed rq.eventId rq.tierId rq.userId
               rq.quantity rq.token now).2 :: (runReserves cfg db grants now qs).2) := by
        conv_lhs => rw [runReserves]
        rw [hdb]
      rcases ih db hcap with ⟨hsum, hbnd⟩
      rw [hrw]
      constructor
      · show occupancy (runReserves cfg db grants now qs).1 t0 now = _
        rw [successQtyFor_cons_ne t0 _ _ hnc]
        exact hsum
      · exact hbnd
    · -- successful request: the new hold is inserted
      have hrw : runReserves cfg db grants now (rq :: qs)
          = ((runReserves cfg
                { db with
                  reservations :=
                    { id := db.nextId, eventId := rq.eventId, tierId := rq.tierId
                      userToken := rq.userId, quantity := rq.quantity, status := .active
                      expiresAt := now + cfg.reservationTtlMs, createdAt := now }
                      :: db.reservations
                  nextId := db.nextId + 1 } grants now qs).1,
             .created
               { id := db.nextId, eventId := rq.eventId, tierId := rq.tierId
                 userToken := rq.userId, quantity := rq.quantity, status := .active
                 expiresAt := now + cfg.reservationTtlMs, createdAt := now }
               :: (runReserves cfg
                { db with
                  reservations :=
                    { id := db.nextId, eventId := rq.eventId, tierId := rq.tierId
                      userToken := rq.userId, quantity := rq.quantity, status := .active
                      expiresAt := now + cfg.reservationTtlMs, createdAt := now }
                      :: db.reservations
                  nextId := db.nextId + 1 } grants now qs).2) := by
        conv_lhs => rw [runReserves]
        rw [heq]
      have hocc1 : occupancy
          { db with
            reservations :=
              { id := db.nextId, eventId := rq.eventId, tierId := rq.tierId
                userToken := rq.userId, quantity := rq.quantity, status := .active
                expiresAt := now + cfg.reservationTtlMs, createdAt := now }
                :: db.reservations
            nextId := db.nextId + 1 } t0 now
          = (if (rq.tierId == t0) = true then rq.quantity else 0) + occupancy db t0 now := by
        rw [occupancy_insert]
        have hd : decide (now < now + cfg.reservationTtlMs) = true := by
          simp only [decide_eq_true_eq]
          omega
        simp only [beq_self_eq_true, Bool.and_true, Bool.true_and, hd]
      rcases ih { db with
          reservations :=
            { id := db.nextId, eventId := rq.eventId, tierId := rq.tierId
              userToken := rq.userId, quantity := rq.quantity, status := .active
              expiresAt := now + cfg.reservationTtlMs, createdAt := now }
              :: db.reservations
          nextId := db.nextId + 1 } hcap with ⟨hsum, hbnd⟩
      rw [hrw]
      constructor
      · show occupancy (runReserves cfg _ grants now qs).1 t0 now = _
        rw [hsum, hocc1]
        show _ = occupancy db t0 now +
          ((if ({ id := db.nextId, eventId := rq.eventId, tierId := rq.tierId,
                  userToken := rq.userId, quantity := rq.quantity,
                  status := ResStatus.active,
                  expiresAt := now + cfg.reservationTtlMs,
                  createdAt := now } : Reservation).tierId == t0
            then rq.quantity else 0) + _)
        dsimp only
        omega
      · intro hle
        apply hbnd
        rw [hocc1]
        by_cases hti0 : (rq.tierId == t0) = true
        · rw [if_pos hti0]
          have htieq : rq.tierId = t0 := by simpa using hti0
          have hmem := List.mem_of_find?_eq_some hfind
          have hpred := List.find?_some hfind
          have htid : tier.id = rq.tierId := by
            rcases Bool.and_eq_true_iff.mp hpred with ⟨h1, _⟩
            simpa using h1
          have hcapC : tier.capacity = C := hcap tier hmem (htid.trans htieq)
          rw [htieq] at hbound
          have hod : occupancy db t0 now = tierActiveQty db t0 now + tierSoldQty db t0 := rfl
          omega
        · rw [if_neg hti0]
          omega

/-- C1: no oversell.  The availability check against the exclusively
locked tier row makes every serialisation of concurrent reserve calls
(the exclusive `SELECT ... FOR UPDATE` on the tier row admits exactly
these interleavings) preserve I1 -- active unexpired holds plus paid
quantities never exceed capacity -- and in particular the successful
quantities of a batch sum to at most the capacity `C`. -/
theorem no_oversell (cfg : Config) (db : DB) (grants : Grants) (now : Nat)
    (t0 : Id) (C : Nat) (reqs : List ReserveReq)
    (httl : 0 < cfg.reservationTtlMs)
    (hcap : ∀ tr ∈ db.tiers, tr.id = t0 → tr.capacity = C)
    (hocc : occupancy db t0 now ≤ C) :
    occupancy (runReserves cfg db grants now reqs).1 t0 now ≤ C ∧
    successQtyFor t0 (runReserves cfg db grants now reqs).2 ≤ C := by
  rcases runReserves_occupancy cfg grants now t0 C httl reqs db hcap with ⟨hsum, hbnd⟩
  refine ⟨hbnd hocc, ?_⟩
  have h2 := hbnd hocc
  omega

/-- Witness for C1: a capacity-1 tier and three competing unit requests --
one succeeds, the rest are refused with `insufficient_inventory`, and the
occupancy stays at 1. -/
theorem no_oversell_witness :
    occupancy (runReserves defaultConfig exDbCap1 exGrants3 1000 exOversellReqs).1 1 1000 ≤ 1 ∧
    successQtyFor 1 (runReserves defaultConfig exDbCap1 exGrants3 1000 exOversellReqs).2 ≤ 1 ∧
    (runReserves defaultConfig exDbCap1 exGrants3 1000 exOversellReqs).2
      = [ .created { id := 100, eventId := 1, tierId := 1, userToken := "alice", quantity := 1
                     status := .active, expiresAt := 181000, createdAt := 1000 }
        , .insufficientInventory 0 1
        , .insufficientInventory 0 1 ] := by
  have h := no_oversell defaultConfig exDbCap1 exGrants3 1000 1 1 exOversellReqs
    (by decide) (by decide) (by decide)
  exact ⟨h.1, h.2, by decide⟩

end TicketDrop
